import Mathlib

/-!
# Verification of the OpenFBX (Neill3d fork) decoder and scene assembler

This development shallowly embeds the parts of `src/ofbx.cpp` relevant to the
specification claims: the binary tokenizer, the property decoders, the
animation-curve evaluator, the geometry triangulator, the per-vertex attribute
splat/remap passes, the cluster weight expansion, the connection resolver, the
local transform evaluator and the global-settings frame-rate table.

Modelling conventions:
* machine integers are modelled as `Int`/`Nat` (overflow is noted where it
  matters); IEEE `float`/`double` arithmetic is idealised over `ℚ` — all
  concrete values appearing in the claims are small dyadic rationals on which
  the IEEE operations performed by the source are exact;
* raw input bytes are `List Nat` (each entry one byte);
* C++ reads that the source performs without a bounds check (undefined
  behaviour on hostile input) are totalised with a default value; every such
  spot is marked with a comment;
* `std::vector` state threading is explicit: functions return the new value.

The helpers `OFBTime`, `OFBMath` and `OFBProperty` live in repository headers
that are not part of `src/`; definitions derived from them are marked
`Modelled from the spec:` in their doc comments.
-/

namespace OFBX

/-- Total list read: `l[i]`, with `0` for an index the C++ code would read out
of bounds. Used only where the source indexes a vector. -/
def zget (l : List Int) (i : Nat) : Int := l.getD i 0

/-- Total list read for rational-valued arrays. -/
def qget (l : List ℚ) (i : Nat) : ℚ := l.getD i 0

/-! ## OFBTime (repository header `OFBTime.h`, not under `src/`)

Modelled from the spec: an FBX time is an integer tick count
(46186158000 ticks per second); `OFBTime::MinusInfinity` is the smallest
representable 64-bit tick value, used as the "no cached sample yet" sentinel
by the curve evaluator. -/

/-- Modelled from the spec: the `OFBTime::MinusInfinity` sentinel (smallest
`i64`). Only its distinctness from ordinary query times matters here. -/
def OFBTimeMinusInfinity : Int := -(2 ^ 63)

/-! ## AnimationCurve (`AnimationCurveImpl`, ofbx.cpp lines 2335-2393) -/

/-- State of an `AnimationCurveImpl`: the three parallel key arrays and the
one-slot evaluation cache (`mLastEvalTime`, `mLastEvalValue`).
`values` holds `float`s in the source; idealised as `ℚ`. -/
structure AnimationCurveImpl where
  times : List Int
  values : List ℚ
  flags : List Int
  mLastEvalTime : Int
  mLastEvalValue : ℚ
deriving Repr, DecidableEq

/-- The `AnimationCurveImpl` constructor (lines 2337-2342): the cache starts
at `(MinusInfinity, 0.0f)`. -/
def AnimationCurveImpl.fresh (times : List Int) (values : List ℚ)
    (flags : List Int) : AnimationCurveImpl :=
  { times := times, values := values, flags := flags,
    mLastEvalTime := OFBTimeMinusInfinity, mLastEvalValue := 0 }

/-- The linear search of `Evaluate` (lines 2364-2372): find the first
`i ∈ [1, count)` with `times[i] ≥ fbx_time` and interpolate; if the loop
falls through (including when `count = 1`), `result` keeps its initial `0`.
`count` is `values.size()` as in the source; `times` is indexed through
`zget` (the source reads it unchecked).
The loop `for (i = 1; i < count; ++i)` is written with the remaining
iteration count `rem = count - i` as a structural recursion argument. -/
def evalLoop (times : List Int) (values : List ℚ) (fbx : Int) :
    Nat → Nat → ℚ
  | _i, 0 => 0
  | i, rem + 1 =>
    if fbx ≤ zget times i then
      let t : ℚ := ((fbx : ℚ) - (zget times (i - 1) : ℚ)) /
        ((zget times i : ℚ) - (zget times (i - 1) : ℚ))
      qget values (i - 1) * (1 - t) + qget values i * t
    else
      evalLoop times values fbx (i + 1) rem

/-- The recomputation path of `Evaluate` (lines 2354-2374): clamp the query
time into `[times[0], times[count-1]]`, then run the linear search. -/
def AnimationCurveImpl.EvaluateCore (c : AnimationCurveImpl) (time : Int) : ℚ :=
  let count := c.values.length
  if 0 < count then
    let fbx₁ := if time < zget c.times 0 then zget c.times 0 else time
    let fbx₂ := if zget c.times (count - 1) < fbx₁ then zget c.times (count - 1)
      else fbx₁
    evalLoop c.times c.values fbx₂ 1 (count - 1)
  else 0

/-- `AnimationCurveImpl::Evaluate` (lines 2344-2377), as a state transformer
returning `(result, new state)`.  Faithful to the source: on a cache hit the
stored `mLastEvalValue` is returned; on a miss the source writes
`mLastEvalTime` but never writes the computed result into `mLastEvalValue`
(the constructor is the only writer of that field). -/
def AnimationCurveImpl.Evaluate (c : AnimationCurveImpl) (time : Int) :
    ℚ × AnimationCurveImpl :=
  if c.mLastEvalTime = time then
    (c.mLastEvalValue, c)
  else
    (c.EvaluateCore time, { c with mLastEvalTime := time })

/-! ## Geometry triangulation (`GeometryImpl::triangulate`, lines 2060-2094)

`triangulate(old_indices, indices, to_old)` walks the `PolygonVertexIndex`
array; a negative entry both terminates the current polygon and encodes
vertex `-idx - 1`.  The loop body is re-expressed as a recursion on the
number of remaining positions (`rem = old_indices.size() - i`); `i` is the
current position and `ipi` the running `in_polygon_idx`.  The source
increments `in_polygon_idx` and then resets it to `0` on a negative entry;
`ipi'` below is that combined update.  The `else` branch reads
`old_indices[i - in_polygon_idx]` and `old_indices[i - 1]` raw, exactly as
the source does. -/
def triLoop (old : List Int) : Nat → Nat → Nat → List Int × List Nat
  | _i, _ipi, 0 => ([], [])
  | i, ipi, rem + 1 =>
    let v := zget old i
    let idx := if v < 0 then -v - 1 else v
    let ipi' := if v < 0 then 0 else ipi + 1
    let rest := triLoop old (i + 1) ipi' rem
    if ipi ≤ 2 then (idx :: rest.1, i :: rest.2)
    else (zget old (i - ipi) :: zget old (i - 1) :: idx :: rest.1,
          (i - ipi) :: (i - 1) :: i :: rest.2)

/-- `GeometryImpl::triangulate`: returns the pair
`(*indices, *to_old)` — the decoded fan index values and the positions they
came from.  (At the `parseGeometry` call site, line 3384, the first
component is stored in `to_old_vertices` and the second in
`to_old_indices`.) -/
def triangulate (old_indices : List Int) : List Int × List Nat :=
  triLoop old_indices 0 0 old_indices.length

/-- A polygon of `k ≥ 1` vertex indices as it appears inside
`PolygonVertexIndex`: all but the last entry raw, the last one
bitwise-complemented (`~x = -x - 1`). -/
def encodePoly (p : List Int) : List Int :=
  p.take (p.length - 1) ++ [-(zget p (p.length - 1)) - 1]

/-- Specification-side fan for a polygon `p` of `k ≥ 3` indices: triangles
`(v0, v_{i-1}, v_i)` for `i = 2 .. k-1`. -/
def fanIndices (p : List Int) : List Int :=
  [zget p 0, zget p 1, zget p 2] ++
    (List.range' 3 (p.length - 3)).flatMap
      (fun i => [zget p 0, zget p (i - 1), zget p i])

/-- Specification-side fan of source positions for a `k`-gon. -/
def fanPositions (k : Nat) : List Nat :=
  [0, 1, 2] ++ (List.range' 3 (k - 3)).flatMap (fun i => [0, i - 1, i])

/-! ## Old-to-new vertex multimap and cluster weight expansion
(`GeometryImpl::NewVertex` lines 2023-2029, `add` lines 3348-3363,
`ClusterImpl::postprocess` lines 2120-2162) -/

/-- `GeometryImpl::NewVertex`: a singly linked chain of triangulated vertex
slots; a default-constructed node has `index = -1` ("unmapped"). -/
inductive NewVertex where
  | mk (index : Int) (next : Option NewVertex)
deriving Repr

/-- The `index` field of a `NewVertex`. -/
def NewVertex.index : NewVertex → Int
  | mk i _ => i

/-- A default-constructed `NewVertex` (`index = -1`, no successor). -/
def NewVertex.dflt : NewVertex := mk (-1) none

/-- `add(NewVertex& vtx, int index)` (lines 3348-3363): fill the head slot if
unused, otherwise append at the end of the chain. -/
def addNV : NewVertex → Int → NewVertex
  | .mk i nxt, index =>
    if i = -1 then .mk index nxt
    else
      match nxt with
      | some n => .mk i (some (addNV n index))
      | none => .mk i (some (.mk index none))

/-- The indices stored along a chain (the `while (n)` walk of
`ClusterImpl::postprocess`, lines 2153-2158, visits every node). -/
def chainIndices : NewVertex → List Int
  | .mk i none => [i]
  | .mk i (some n) => i :: chainIndices n

/-- Read `to_new_vertices[old_idx]`.  The source (line 2151) indexes the
vector with the file-supplied `old_idx` unchecked; an out-of-range access is
undefined behaviour in C++ and is totalised here to a default-constructed
node, which the caller skips. -/
def ngget (l : List NewVertex) (i : Int) : NewVertex :=
  if h : 0 ≤ i ∧ i.toNat < l.length then l.get ⟨i.toNat, h.2⟩ else .mk (-1) none

/-- The expansion loop of `ClusterImpl::postprocess` (lines 2147-2159): for
each `(old_idx, w)` pair, skip if `to_new_vertices[old_idx].index == -1`,
otherwise emit one `(new_idx, w)` pair per chain node. -/
def clusterExpand (toNew : List NewVertex) : List (Int × ℚ) → List Int × List ℚ
  | [] => ([], [])
  | (oldIdx, w) :: rest =>
    let r := clusterExpand toNew rest
    let n := ngget toNew oldIdx
    if n.index = -1 then r
    else (chainIndices n ++ r.1, (chainIndices n).map (fun _ => w) ++ r.2)

/-- `ClusterImpl::postprocess` after the `Indexes`/`Weights` arrays have been
decoded (lines 2141-2159): reject length mismatch, then expand. -/
def clusterPostprocessCore (toNew : List NewVertex) (oldIndices : List Int)
    (oldWeights : List ℚ) : Option (List Int × List ℚ) :=
  if oldIndices.length ≠ oldWeights.length then none
  else some (clusterExpand toNew (oldIndices.zip oldWeights))

/-! ## Per-vertex attribute splat and remap (`splat` lines 3212-3261,
`remap` lines 3264-3276) -/

/-- `GeometryImpl::VertexDataMapping` (lines 2016-2021). -/
inductive VertexDataMapping where
  | byPolygonVertex | byPolygon | byVertex
deriving Repr, DecidableEq

/-- Read `data[idx]` for an `int` index that has already passed the source's
`idx < data_size` guard.  A negative index passes that guard and indexes out
of bounds (undefined behaviour in C++); it is totalised to the zero value
here. -/
def agetOrZero {α : Type} [Zero α] (l : List α) (i : Int) : α :=
  if h : 0 ≤ i ∧ i.toNat < l.length then l.get ⟨i.toNat, h.2⟩ else 0

/-- `splat` (lines 3212-3261): expand the raw attribute array to one entry
per polygon-vertex.  `ByPolygonVertex` with a reference-index array writes
`data[indices[i]]` under the guard `indices[i] < data_size` and the
zero-value `T()` otherwise; `ByVertex` folds the negative-last convention
into the original index first.  The `ByPolygon` branch is `assert(false)` in
the source and leaves the (empty) output untouched. -/
def splat {α : Type} [Zero α] (mapping : VertexDataMapping) (data : List α)
    (indices : List Int) (original_indices : List Int) : List α :=
  match mapping with
  | .byPolygonVertex =>
    if indices.isEmpty then data
    else
      (List.range indices.length).map (fun i =>
        if zget indices i < (data.length : Int) then agetOrZero data (zget indices i)
        else 0)
  | .byVertex =>
    (List.range original_indices.length).map (fun i =>
      let idx0 := zget original_indices i
      let idx := if idx0 < 0 then -idx0 - 1 else idx0
      if idx < (data.length : Int) then agetOrZero data idx else 0)
  | .byPolygon => []

/-- `remap` (lines 3264-3276): rewrite the splatted array through the
position map, with the same `map[i] < old_size` guard and zero-fill. -/
def remap {α : Type} [Zero α] (out : List α) (m : List Int) : List α :=
  if out.isEmpty then out
  else m.map (fun i =>
    if i < (out.length : Int) then agetOrZero out i else 0)

/-- Total read of an attribute array entry (zero default). -/
def agetD {α : Type} [Zero α] (l : List α) (i : Nat) : α := l.getD i 0

/-! ## Frame-rate table (`getFramerateFromTimeMode`, lines 3683-3704)

The two non-integral rates are the `float` literals `29.9700262f` and
`23.976f`, idealised as the exact decimals. -/

/-- `getFramerateFromTimeMode`. -/
def getFramerateFromTimeMode (time_mode : Int) : ℚ :=
  if time_mode = 0 then 1
  else if time_mode = 1 then 120
  else if time_mode = 2 then 100
  else if time_mode = 3 then 60
  else if time_mode = 4 then 50
  else if time_mode = 5 then 48
  else if time_mode = 6 then 30
  else if time_mode = 7 then 30
  else if time_mode = 8 then 299700262 / 10000000
  else if time_mode = 9 then 299700262 / 10000000
  else if time_mode = 10 then 25
  else if time_mode = 11 then 24
  else if time_mode = 12 then 1000
  else if time_mode = 13 then 23976 / 1000
  else if time_mode = 14 then -2
  else -1

/-! ## Local transform evaluation (`Model::evalLocal`, lines 4205-4271)

The matrix and rotation helpers live in the repository header `OFBMath.h`,
which is not under `src/`; they are modelled from the spec (§4.6):
matrices are 4×4 over ℚ in column-major layout (`m[4c+r]`), translation in
entries 12–14, and `R` composes the three axis rotations in the order named
by `RotationOrder` (`SPHERIC_XYZ` treated as `EULER_XYZ`).  Because real
trigonometry is not computable, an Euler angle is represented by the pair
`(cos θ, sin θ)` of its radian value: the source's matrix entries depend on
the angles only through these two values, so nothing is lost; the zero
angle is `(1, 0)` and negation maps `(c, s)` to `(c, -s)`. -/

/-- A 3-vector over ℚ (`OFBVector3`, `double` components in the source). -/
structure OFBVector3 where
  x : ℚ
  y : ℚ
  z : ℚ
deriving Repr, DecidableEq

/-- Modelled from the spec: one Euler angle, represented by its cosine and
sine. -/
structure RotAngle where
  c : ℚ
  s : ℚ
deriving Repr, DecidableEq

/-- A triple of Euler angles (the source's rotation `OFBVector3`, in
degrees; here each component is carried as `(cos, sin)`). -/
structure RotVector where
  x : RotAngle
  y : RotAngle
  z : RotAngle
deriving Repr, DecidableEq

/-- The zero angle. -/
def RotAngle.zero : RotAngle := ⟨1, 0⟩

/-- The zero rotation vector `{0, 0, 0}`. -/
def RotVector.zero : RotVector := ⟨.zero, .zero, .zero⟩

/-- Componentwise negation of a rotation vector
(`cos(-θ) = cos θ`, `sin(-θ) = -sin θ`). -/
def RotVector.neg (r : RotVector) : RotVector :=
  ⟨⟨r.x.c, -r.x.s⟩, ⟨r.y.c, -r.y.s⟩, ⟨r.z.c, -r.z.s⟩⟩

/-- Modelled from the spec: `OFBMatrix`, a 4×4 matrix in column-major
layout (`m[4c+r]`, translation in entries 12-14). -/
structure OFBMatrix where
  m0 : ℚ := 0
  m1 : ℚ := 0
  m2 : ℚ := 0
  m3 : ℚ := 0
  m4 : ℚ := 0
  m5 : ℚ := 0
  m6 : ℚ := 0
  m7 : ℚ := 0
  m8 : ℚ := 0
  m9 : ℚ := 0
  m10 : ℚ := 0
  m11 : ℚ := 0
  m12 : ℚ := 0
  m13 : ℚ := 0
  m14 : ℚ := 0
  m15 : ℚ := 0
deriving Repr, DecidableEq

/-- Modelled from the spec: `makeIdentity`. -/
def makeIdentity : OFBMatrix :=
  { m0 := 1, m5 := 1, m10 := 1, m15 := 1 }

/-- Modelled from the spec: column-major matrix product
(`(a·b)[4c+r] = Σ_k a[4k+r]·b[4c+k]`). -/
def mulM (a b : OFBMatrix) : OFBMatrix where
  m0 := a.m0 * b.m0 + a.m4 * b.m1 + a.m8 * b.m2 + a.m12 * b.m3
  m1 := a.m1 * b.m0 + a.m5 * b.m1 + a.m9 * b.m2 + a.m13 * b.m3
  m2 := a.m2 * b.m0 + a.m6 * b.m1 + a.m10 * b.m2 + a.m14 * b.m3
  m3 := a.m3 * b.m0 + a.m7 * b.m1 + a.m11 * b.m2 + a.m15 * b.m3
  m4 := a.m0 * b.m4 + a.m4 * b.m5 + a.m8 * b.m6 + a.m12 * b.m7
  m5 := a.m1 * b.m4 + a.m5 * b.m5 + a.m9 * b.m6 + a.m13 * b.m7
  m6 := a.m2 * b.m4 + a.m6 * b.m5 + a.m10 * b.m6 + a.m14 * b.m7
  m7 := a.m3 * b.m4 + a.m7 * b.m5 + a.m11 * b.m6 + a.m15 * b.m7
  m8 := a.m0 * b.m8 + a.m4 * b.m9 + a.m8 * b.m10 + a.m12 * b.m11
  m9 := a.m1 * b.m8 + a.m5 * b.m9 + a.m9 * b.m10 + a.m13 * b.m11
  m10 := a.m2 * b.m8 + a.m6 * b.m9 + a.m10 * b.m10 + a.m14 * b.m11
  m11 := a.m3 * b.m8 + a.m7 * b.m9 + a.m11 * b.m10 + a.m15 * b.m11
  m12 := a.m0 * b.m12 + a.m4 * b.m13 + a.m8 * b.m14 + a.m12 * b.m15
  m13 := a.m1 * b.m12 + a.m5 * b.m13 + a.m9 * b.m14 + a.m13 * b.m15
  m14 := a.m2 * b.m12 + a.m6 * b.m13 + a.m10 * b.m14 + a.m14 * b.m15
  m15 := a.m3 * b.m12 + a.m7 * b.m13 + a.m11 * b.m14 + a.m15 * b.m15

/-- Modelled from the spec: `setTranslation` writes the vector into matrix
entries 12-14. -/
def setTranslation (v : OFBVector3) (m : OFBMatrix) : OFBMatrix :=
  { m with m12 := v.x, m13 := v.y, m14 := v.z }

/-- The scale matrix built inline by `evalLocal` (lines 4225-4228:
identity with `m[0], m[5], m[10]` set to the scale components). -/
def scaleMatrix (v : OFBVector3) : OFBMatrix :=
  { makeIdentity with m0 := v.x, m5 := v.y, m10 := v.z }

/-- Modelled from the spec: rotation about the X axis. -/
def rotXM (a : RotAngle) : OFBMatrix :=
  { makeIdentity with m5 := a.c, m6 := a.s, m9 := -a.s, m10 := a.c }

/-- Modelled from the spec: rotation about the Y axis. -/
def rotYM (a : RotAngle) : OFBMatrix :=
  { makeIdentity with m0 := a.c, m2 := -a.s, m8 := a.s, m10 := a.c }

/-- Modelled from the spec: rotation about the Z axis. -/
def rotZM (a : RotAngle) : OFBMatrix :=
  { makeIdentity with m0 := a.c, m1 := a.s, m4 := -a.s, m5 := a.c }

/-- `OFBRotationOrder` (repository header, not under `src/`): the six Euler
orders plus `SPHERIC_XYZ`. -/
inductive OFBRotationOrder where
  | eEULER_XYZ | eEULER_XZY | eEULER_YXZ | eEULER_YZX | eEULER_ZXY
  | eEULER_ZYX | eSPHERIC_XYZ
deriving Repr, DecidableEq

/-- Modelled from the spec: `getRotationMatrix` composes the three axis
rotations in the order named by `RotationOrder`; `SPHERIC_XYZ` is treated
as `EULER_XYZ`.  (Both sides of every claim below go through this one
definition, so the verified content — which order enum the source passes —
does not depend on the composition convention chosen here.) -/
def getRotationMatrix (r : RotVector) (order : OFBRotationOrder) : OFBMatrix :=
  match order with
  | .eEULER_XYZ => mulM (mulM (rotXM r.x) (rotYM r.y)) (rotZM r.z)
  | .eEULER_XZY => mulM (mulM (rotXM r.x) (rotZM r.z)) (rotYM r.y)
  | .eEULER_YXZ => mulM (mulM (rotYM r.y) (rotXM r.x)) (rotZM r.z)
  | .eEULER_YZX => mulM (mulM (rotYM r.y) (rotZM r.z)) (rotXM r.x)
  | .eEULER_ZXY => mulM (mulM (rotZM r.z) (rotXM r.x)) (rotYM r.y)
  | .eEULER_ZYX => mulM (mulM (rotZM r.z) (rotYM r.y)) (rotXM r.x)
  | .eSPHERIC_XYZ => mulM (mulM (rotXM r.x) (rotYM r.y)) (rotZM r.z)

/-- Modelled from the spec: `VectorIsZero`, an exact zero test. -/
def VectorIsZero (v : OFBVector3) : Prop := v.x = 0 ∧ v.y = 0 ∧ v.z = 0

instance (v : OFBVector3) : Decidable (VectorIsZero v) := by
  unfold VectorIsZero; infer_instance

/-- The zero test on a rotation vector carried as cosine/sine pairs: every
component is the zero angle. -/
def RotIsZero (r : RotVector) : Prop :=
  r.x = .zero ∧ r.y = .zero ∧ r.z = .zero

instance (r : RotVector) : Decidable (RotIsZero r) := by
  unfold RotIsZero; infer_instance

/-- The transform-related property slots of a `Model` read by `evalLocal`
(declared in `Model`'s constructor; pivots and offsets default to zero,
`RotationActive` to false, `RotationOrder` to `EULER_XYZ`). -/
structure ModelState where
  RotationPivot : OFBVector3 := ⟨0, 0, 0⟩
  ScalingPivot : OFBVector3 := ⟨0, 0, 0⟩
  RotationOffset : OFBVector3 := ⟨0, 0, 0⟩
  ScalingOffset : OFBVector3 := ⟨0, 0, 0⟩
  PreRotation : RotVector := .zero
  PostRotation : RotVector := .zero
  RotationActive : Bool := false
  RotationOrder : OFBRotationOrder := .eEULER_XYZ
deriving Repr, DecidableEq

/-- Componentwise vector negation. -/
def negV3 (v : OFBVector3) : OFBVector3 := ⟨-v.x, -v.y, -v.z⟩

/-- `Model::evalLocal` (lines 4205-4271).  Faithful to the source: the
pre/post rotations and the rotation order are taken from the node's
properties only when `RotationActive` is true; otherwise they stay at their
local defaults (`{0,0,0}` and `eEULER_XYZ`).  The cheap path `t·r·s` fires
when all pivots, offsets and (effective) pre/post rotations are zero;
otherwise the ten-term Autodesk pivot product is used with
`R_pre = R_XYZ(pre)` and `R_post⁻¹ = R_ZYX(-post)`. -/
def evalLocal (st : ModelState) (translation : OFBVector3)
    (rotation : RotVector) (scaling : OFBVector3) : OFBMatrix :=
  let rotation_pivot := st.RotationPivot
  let scaling_pivot := st.ScalingPivot
  let preRotation := if st.RotationActive then st.PreRotation else .zero
  let postRotation := if st.RotationActive then st.PostRotation else .zero
  let rotation_order := if st.RotationActive then st.RotationOrder
    else OFBRotationOrder.eEULER_XYZ
  let rotationOffset := st.RotationOffset
  let scalingOffset := st.ScalingOffset
  let s := scaleMatrix scaling
  let t := setTranslation translation makeIdentity
  let r := getRotationMatrix rotation rotation_order
  if VectorIsZero rotation_pivot ∧ VectorIsZero scaling_pivot ∧
      RotIsZero preRotation ∧ RotIsZero postRotation ∧
      VectorIsZero rotationOffset ∧ VectorIsZero scalingOffset then
    mulM (mulM t r) s
  else
    let r_pre := getRotationMatrix preRotation .eEULER_XYZ
    let r_post_inv := getRotationMatrix postRotation.neg .eEULER_ZYX
    let r_off := setTranslation rotationOffset makeIdentity
    let r_p := setTranslation rotation_pivot makeIdentity
    let r_p_inv := setTranslation (negV3 rotation_pivot) makeIdentity
    let s_off := setTranslation scalingOffset makeIdentity
    let s_p := setTranslation scaling_pivot makeIdentity
    let s_p_inv := setTranslation (negV3 scaling_pivot) makeIdentity
    mulM (mulM (mulM (mulM (mulM (mulM (mulM (mulM (mulM (mulM t r_off) r_p)
      r_pre) r) r_post_inv) r_p_inv) s_off) s_p) s) s_p_inv

/-- The 90°/0°/90° rotation input, as cosine/sine pairs
(`cos 90° = 0`, `sin 90° = 1`) — an input on which the six Euler orders
produce different matrices. -/
def rot90_0_90 : RotVector := ⟨⟨0, 1⟩, ⟨1, 0⟩, ⟨0, 1⟩⟩

/-! ## Bytes and little-endian primitive readers
(`Cursor` and `read<T>`, lines 112-117 and 524-531) -/

/-- Little-endian byte-list to natural number. -/
def bytesToNatLE : List Nat → Nat
  | [] => 0
  | b :: rest => b % 256 + 256 * bytesToNatLE rest

/-- `data[pos..pos+n)`. -/
def sliceBytes (data : List Nat) (pos n : Nat) : List Nat :=
  (data.drop pos).take n

/-- Unchecked little-endian `u32` read at a byte offset (0 beyond the end). -/
def readU32At (data : List Nat) (pos : Nat) : Nat :=
  bytesToNatLE (sliceBytes data pos 4)

/-- A byte list reinterpreted as a two's-complement signed 64-bit integer. -/
def i64OfBytes (bs : List Nat) : Int :=
  let n := bytesToNatLE (bs.take 8)
  if n < 2 ^ 63 then (n : Int) else (n : Int) - 2 ^ 64

/-- A byte list reinterpreted as a two's-complement signed 32-bit integer
(`*(int*)p`). -/
def i32OfBytes (bs : List Nat) : Int :=
  let n := bytesToNatLE (bs.take 4)
  if n < 2 ^ 31 then (n : Int) else (n : Int) - 2 ^ 32

/-- IEEE-754 binary32 bytes to an exact rational (`float` reinterpretation).
Infinities and NaNs (exponent 255) have no rational value and map to `0`;
no claim input reaches them. -/
def f32ToRat (bs : List Nat) : ℚ :=
  let n : Nat := bytesToNatLE (bs.take 4)
  let sign : Nat := n / 2 ^ 31
  let expo : Nat := (n / 2 ^ 23) % 256
  let frac : Nat := n % 2 ^ 23
  if expo = 255 then 0
  else
    let mag : ℚ :=
      if expo = 0 then (frac : ℚ) / 2 ^ 149
      else ((2 ^ 23 + frac : Nat) : ℚ) * 2 ^ expo / 2 ^ 150
    if sign = 1 then -mag else mag

/-- IEEE-754 binary64 bytes to an exact rational (`double`
reinterpretation); exponent 2047 (inf/NaN) maps to `0`. -/
def f64ToRat (bs : List Nat) : ℚ :=
  let n : Nat := bytesToNatLE (bs.take 8)
  let sign : Nat := n / 2 ^ 63
  let expo : Nat := (n / 2 ^ 52) % 2048
  let frac : Nat := n % 2 ^ 52
  if expo = 2047 then 0
  else
    let mag : ℚ :=
      if expo = 0 then (frac : ℚ) / 2 ^ 1074
      else ((2 ^ 52 + frac : Nat) : ℚ) * 2 ^ expo / 2 ^ 1075
    if sign = 1 then -mag else mag

/-- The code points of an ASCII string, used for identifiers and string
property payloads. -/
def strBytes (s : String) : List Nat := s.data.map Char.toNat

/-- `atoll`-style ASCII integer parse (used by the text-dialect branch of
`DataView::toU64`/`toInt`): optional minus sign, then leading digits. -/
def asciiToInt (bs : List Nat) : Int :=
  let rec digits : List Nat → Nat → Nat
    | b :: rest, acc =>
      if 48 ≤ b ∧ b ≤ 57 then digits rest (acc * 10 + (b - 48)) else acc
    | [], acc => acc
  match bs with
  | b :: rest => if b = 45 then -(digits rest 0 : Int) else (digits bs 0 : Int)
  | [] => 0

/-! ## Tokenized properties and elements
(`Property` lines 213-243, `Element` lines 246-267, `findChild` 270-279) -/

/-- A tokenized property: the tag byte, the source dialect, the byte range
between `value.begin` and `value.end`, and the text-dialect array count.
For array tags the payload includes the 12-byte count/encoding/length
header; for `R` it includes the 4-byte length prefix; for `S` it is the
bare string (`readLongString` overwrites the view). -/
structure PropertyB where
  typ : Nat
  binary : Bool := true
  payload : List Nat := []
  count : Nat := 0
deriving Repr, DecidableEq

/-- `isString` (line 3505): tag `'S'` = 83. -/
def PropertyB.isStr (p : PropertyB) : Bool := p.typ = 83

/-- `isLong` (line 3512): tag `'L'` = 76. -/
def PropertyB.isLong (p : PropertyB) : Bool := p.typ = 76

/-- `DataView::toU64` (lines 139-147): binary reinterprets the first eight
payload bytes; text goes through `atoll` (negative values wrap modulo
`2^64`). -/
def PropertyB.toU64 (p : PropertyB) : Nat :=
  if p.binary then bytesToNatLE (p.payload.take 8)
  else ((asciiToInt p.payload) % (2 ^ 64 : Int)).toNat

/-- `Property::getCount` (lines 219-227): binary reads the leading `u32` of
the payload; text returns the stored count. -/
def PropertyB.getCount (p : PropertyB) : Nat :=
  if p.binary then readU32At p.payload 0 else p.count

/-- A tokenized element: identifier bytes, ordered properties, children.
The source links children through `child`/`sibling` pointers; a list is the
same shape. -/
inductive ElementB where
  | mk (id : List Nat) (props : List PropertyB) (children : List ElementB)
deriving Repr

/-- Identifier accessor. -/
def ElementB.id : ElementB → List Nat
  | mk i _ _ => i

/-- Property-list accessor. -/
def ElementB.props : ElementB → List PropertyB
  | mk _ p _ => p

/-- Children accessor. -/
def ElementB.children : ElementB → List ElementB
  | mk _ _ c => c

/-- The empty element (used for the synthetic tokenizer root). -/
def ElementB.empty : ElementB := mk [] [] []

/-- `findChild` (lines 270-279): the first child whose id equals the name
(`DataView::operator==` is exact byte equality). -/
def findChildE (e : ElementB) (name : List Nat) : Option ElementB :=
  e.children.find? (fun ch => ch.id = name)

/-- `Element::getProperty(idx)` (lines 252-261): walk `idx` links, null if
exhausted. -/
def ElementB.getPropertyN (e : ElementB) (idx : Nat) : Option PropertyB :=
  e.props.get? idx

/-! ## Binary tokenizer (`readProperty` lines 566-618, `readElement`
lines 638-719, `tokenize` lines 971-1001)

The recursions are driven by an explicit fuel argument; `tokenize` passes
`data.length + 1`, ample for the concrete inputs below (every iteration of
the source loops consumes input or errors). -/

/-- A byte cursor: the buffer and the current offset from `begin`. -/
structure Cursor' where
  data : List Nat
  pos : Nat
deriving Repr

/-- Bounds-checked `read<u8>`. -/
def creadU8 (c : Cursor') : Option (Nat × Cursor') :=
  if c.pos + 1 ≤ c.data.length then
    some ((c.data.getD c.pos 0) % 256, { c with pos := c.pos + 1 })
  else none

/-- Bounds-checked `read<u32>`. -/
def creadU32 (c : Cursor') : Option (Nat × Cursor') :=
  if c.pos + 4 ≤ c.data.length then
    some (readU32At c.data c.pos, { c with pos := c.pos + 4 })
  else none

/-- Bounds-checked `read<u64>`. -/
def creadU64 (c : Cursor') : Option (Nat × Cursor') :=
  if c.pos + 8 ≤ c.data.length then
    some (bytesToNatLE (sliceBytes c.data c.pos 8), { c with pos := c.pos + 8 })
  else none

/-- `readShortString` (lines 533-547). -/
def readShortStringM (c : Cursor') : Option (List Nat × Cursor') :=
  match creadU8 c with
  | none => none
  | some (len, c1) =>
    if c1.pos + len ≤ c1.data.length then
      some (sliceBytes c1.data c1.pos len, { c1 with pos := c1.pos + len })
    else none

/-- `readLongString` (lines 550-563). -/
def readLongStringM (c : Cursor') : Option (List Nat × Cursor') :=
  match creadU32 c with
  | none => none
  | some (len, c1) =>
    if c1.pos + len ≤ c1.data.length then
      some (sliceBytes c1.data c1.pos len, { c1 with pos := c1.pos + len })
    else none

/-- `readProperty` (lines 566-618).  Scalar tags advance the cursor without
a bounds check, exactly as the source does (a later read then fails at the
buffer end); the payload slice is clipped at the buffer end, where the
source would read garbage (UB).  Unknown tags are fatal. -/
def readPropertyM (c : Cursor') : Option (PropertyB × Cursor') :=
  if c.pos = c.data.length then none
  else
    let t := (c.data.getD c.pos 0) % 256
    let c1 : Cursor' := { c with pos := c.pos + 1 }
    if t = 83 then          -- 'S'
      (readLongStringM c1).map (fun pr =>
        ({ typ := t, payload := pr.1 }, pr.2))
    else if t = 89 then     -- 'Y'
      some ({ typ := t, payload := sliceBytes c1.data c1.pos 2 },
        { c1 with pos := c1.pos + 2 })
    else if t = 67 then     -- 'C'
      some ({ typ := t, payload := sliceBytes c1.data c1.pos 1 },
        { c1 with pos := c1.pos + 1 })
    else if t = 73 ∨ t = 70 then   -- 'I', 'F'
      some ({ typ := t, payload := sliceBytes c1.data c1.pos 4 },
        { c1 with pos := c1.pos + 4 })
    else if t = 68 ∨ t = 76 then   -- 'D', 'L'
      some ({ typ := t, payload := sliceBytes c1.data c1.pos 8 },
        { c1 with pos := c1.pos + 8 })
    else if t = 82 then     -- 'R': the payload keeps the length prefix
      match creadU32 c1 with
      | none => none
      | some (len, c2) =>
        if c2.pos + len ≤ c2.data.length then
          some ({ typ := t, payload := sliceBytes c1.data c1.pos (4 + len) },
            { c2 with pos := c2.pos + len })
        else none
    else if t = 98 ∨ t = 99 ∨ t = 102 ∨ t = 100 ∨ t = 108 ∨ t = 105 then
      -- 'b' 'c' 'f' 'd' 'l' 'i': u32 count, u32 encoding, u32 comp_len
      match creadU32 c1 with
      | none => none
      | some (_, c2) =>
        match creadU32 c2 with
        | none => none
        | some (_, c3) =>
          match creadU32 c3 with
          | none => none
          | some (compLen, c4) =>
            if c4.pos + compLen ≤ c4.data.length then
              some ({ typ := t,
                      payload := sliceBytes c1.data c1.pos (12 + compLen) },
                { c4 with pos := c4.pos + compLen })
            else none
    else none

/-- The `prop_count` property-reading loop of `readElement`
(lines 676-687). -/
def readPropsLoop : Nat → Cursor' → Option (List PropertyB × Cursor')
  | 0, c => some ([], c)
  | n + 1, c =>
    match readPropertyM c with
    | none => none
    | some (p, c1) =>
      match readPropsLoop n c1 with
      | none => none
      | some (ps, c2) => some (p :: ps, c2)

/-- `readElementOffset` (lines 638-650): 64-bit for version ≥ 7500, 32-bit
below. -/
def readElementOffsetM (version : Nat) (c : Cursor') : Option (Nat × Cursor') :=
  if 7500 ≤ version then creadU64 c else creadU32 c

mutual

/-- `readElement` (lines 653-719).  Returns `none` on a parse error,
`some (none, c)` for the zero end-offset that terminates a sibling list,
and `some (some element, c)` otherwise. -/
def readElementM (version : Nat) :
    Nat → Cursor' → Option (Option ElementB × Cursor')
  | 0, _ => none
  | fuel + 1, c =>
    match readElementOffsetM version c with
    | none => none
    | some (endOffset, c1) =>
      if endOffset = 0 then some (none, c1)
      else
        match readElementOffsetM version c1 with
        | none => none
        | some (propCount, c2) =>
          match readElementOffsetM version c2 with
          | none => none
          | some (_propLength, c3) =>
            match readShortStringM c3 with
            | none => none
            | some (idBytes, c4) =>
              match readPropsLoop propCount c4 with
              | none => none
              | some (props, c5) =>
                if (endOffset : Int) ≤ (c5.pos : Int) then
                  some (some (.mk idBytes props []), c5)
                else
                  let sentinel := if 7500 ≤ version then 25 else 13
                  match readChildrenM version fuel endOffset sentinel c5 [] with
                  | none => none
                  | some (children, c6) =>
                    if c6.data.length < c6.pos + sentinel then none
                    else
                      some (some (.mk idBytes props children),
                        { c6 with pos := c6.pos + sentinel })

/-- The child-reading loop of `readElement` (lines 693-709): read children
while the cursor is before `end_offset - sentinel` (a signed comparison in
the source). -/
def readChildrenM (version : Nat) :
    Nat → Nat → Nat → Cursor' → List ElementB →
    Option (List ElementB × Cursor')
  | 0, _, _, _, _ => none
  | fuel + 1, endOffset, sentinel, c, acc =>
    if (c.pos : Int) < (endOffset : Int) - (sentinel : Int) then
      match readElementM version fuel c with
      | none => none
      | some (child?, c1) =>
        readChildrenM version fuel endOffset sentinel c1
          (match child? with
           | some ch => acc ++ [ch]
           | none => acc)
    else some (acc, c)

end

/-- The top-level sibling loop of `tokenize` (lines 988-1000): read
elements until a zero offset yields a null child. -/
def tokenizeLoop (version : Nat) :
    Nat → Cursor' → List ElementB → Option (List ElementB)
  | 0, _, _ => none
  | fuel + 1, c, acc =>
    match readElementM version fuel c with
    | none => none
    | some (none, _) => some acc
    | some (some ch, c1) => tokenizeLoop version fuel c1 (acc ++ [ch])

/-- `tokenize` (lines 971-1001): interpret the 27-byte header (the magic is
not validated; only the version field at offset 23 is read), then read
top-level siblings into a synthetic root element. -/
def tokenizeM (data : List Nat) : Option ElementB :=
  let version := readU32At data 23
  match tokenizeLoop version (data.length + 1) ⟨data, 27⟩ [] with
  | none => none
  | some children => some (.mk [] [] children)

/-! ## Scene state (`struct Scene`, lines 2463-2612) -/

/-- `Scene::Connection::Type` (lines 2467-2472). -/
inductive ConnType where
  | OBJECT_OBJECT | OBJECT_PROPERTY | PROPERTY_PROPERTY
deriving Repr, DecidableEq

/-- `Scene::Connection`: edge kind, endpoint ids, property names. -/
structure Connection' where
  ctype : ConnType
  fromId : Nat := 0
  toId : Nat := 0
  property : List Nat := []
  srcProperty : List Nat := []
deriving Repr, DecidableEq

/-- `TakeInfo` (times in seconds, `fbxTimeToSeconds`). -/
structure TakeInfo' where
  name : List Nat := []
  filename : List Nat := []
  localTimeFrom : ℚ := 0
  localTimeTo : ℚ := 0
  referenceTimeFrom : ℚ := 0
  referenceTimeTo : ℚ := 0
deriving Repr, DecidableEq

/-- `fbxTimeToSeconds` on a `u64` tick count. -/
def fbxTimeToSeconds (t : Nat) : ℚ := (t : ℚ) / 46186158000

/-- `Object::Type` (ofbx.h). -/
inductive ObjType where
  | ROOT | GEOMETRY | MATERIAL | MESH | TEXTURE | LIMB_NODE | NULL_NODE
  | NODE_ATTRIBUTE | CLUSTER | SKIN | ANIMATION_STACK | ANIMATION_LAYER
  | ANIMATION_CURVE | ANIMATION_CURVE_NODE | CONSTRAINT | CONSTRAINT_POSITION
  | SHADER | CAMERA | LIGHT
deriving Repr, DecidableEq

/-- `AnimationNodeType` (ofbx.h lines 232-246). -/
inductive AnimationNodeType where
  | custom | translation | rotation | scaling | visibility | fieldOfView
deriving Repr, DecidableEq

/-- One typed property slot on an object (`PropertyBase` chain of
`OFBProperty.h`, a repository header outside `src/`).  Modelled from the
spec: a slot has a name, is animatable or not, may hold an
object-reference value, and an animatable slot accumulates attached
animation-curve-node ids. -/
structure PropSlot where
  name : List Nat
  animatable : Bool := false
  isObject : Bool := false
  objValue : Option Nat := none
  animNodes : List Nat := []
deriving Repr, DecidableEq

/-- A typed scene object: the kind discriminator plus the binding fields the
connection resolver and post-processing mutate.  Objects are identified by
their 64-bit file id; references between objects are stored as ids (the
source uses raw pointers into the same object map).  Construction-time
details that no claim observes (geometry attribute payloads, camera/light
parameters, property-slot declarations) are not modelled; the property-slot
list starts empty, so the resolver's slot-attachment walks are faithful
no-ops here. -/
structure TObj where
  ty : ObjType
  id : Nat := 0
  name : List Nat := []
  isNode : Bool := false
  isSceneRoot : Bool := false
  element : ElementB := ElementB.empty
  nodeAttr : Option Nat := none
  props : List PropSlot := []
  meshGeometry : Option Nat := none
  meshMaterials : List Nat := []
  skinClusters : List Nat := []
  clusterSkin : Option Nat := none
  clusterLink : Option Nat := none
  clusterIndices : List Int := []
  clusterWeights : List ℚ := []
  clusterTransform : List ℚ := []
  clusterTransformLink : List ℚ := []
  geomSkin : Option Nat := none
  geomToNew : List NewVertex := []
  geomToOldVertices : List Int := []
  stackLayers : List Nat := []
  stackLoopStart : Nat := 0
  stackLoopStop : Nat := 4 * 46186158000
  layerCurveNodes : List Nat := []
  layerSublayers : List Nat := []
  layerParent : Option Nat := none
  layerID : Int := 0
  acnOwner : Option Nat := none
  acnLayer : Option Nat := none
  acnCurves : List Nat := []
  acnMode : AnimationNodeType := .custom
  acnBoneLink : List Nat := []
  animNodesOnModel : List Nat := []
  texDiffuse : Option Nat := none
  texNormal : Option Nat := none
  nodeAttrType : List Nat := []
  curve : Option AnimationCurveImpl := none
deriving Repr

/-- `Scene::ObjectPair` (element, typed object or null). -/
structure ObjectPair where
  element : ElementB
  object : Option TObj
deriving Repr

/-- The scene state built by `load`: the tokenized root, the connection
table, take infos, the id → pair map (modelled as an association list in
insertion order; the source's `unordered_map` iteration order is
unspecified), the synthetic root, the indexed object lists (ids), and the
global frame rate (initially `-1`, line 2603). -/
structure SceneS where
  rootElement : ElementB := ElementB.empty
  connections : List Connection' := []
  takeInfos : List TakeInfo' := []
  objectMap : List (Nat × ObjectPair) := []
  root? : Option TObj := none
  allObjects : List Nat := []
  meshes : List Nat := []
  materials : List Nat := []
  constraints : List Nat := []
  animationStacks : List Nat := []
  cameras : List Nat := []
  lights : List Nat := []
  shaders : List Nat := []
  sceneFrameRate : ℚ := -1
deriving Repr

/-- Map read (`m_object_map.find`). -/
def mapFind (m : List (Nat × ObjectPair)) (k : Nat) : Option ObjectPair :=
  (m.find? (fun kv => kv.1 = k)).map (fun kv => kv.2)

/-- Map write (`m_object_map[k] = v`): replace or append. -/
def mapSet (m : List (Nat × ObjectPair)) (k : Nat) (v : ObjectPair) :
    List (Nat × ObjectPair) :=
  if (m.find? (fun kv => kv.1 = k)).isSome then
    m.map (fun kv => if kv.1 = k then (kv.1, v) else kv)
  else m ++ [(k, v)]

/-- `m_object_map[k].object` (the source's `operator[]` would insert an
empty pair for a missing id; the inserted pair's null object is
observationally the same as this `none`). -/
def lookupObj (sc : SceneS) (k : Nat) : Option TObj :=
  match mapFind sc.objectMap k with
  | none => none
  | some pr => pr.object

/-- Overwrite the object stored at id `k` (a mutation through the source's
object pointer). -/
def mapSetObj (m : List (Nat × ObjectPair)) (k : Nat) (o : TObj) :
    List (Nat × ObjectPair) :=
  m.map (fun kv => if kv.1 = k then (kv.1, { kv.2 with object := some o }) else kv)

/-! ## parseConnections (lines 3519-3596) -/

/-- One `Connections` child (lines 3527-3594). -/
def parseOneConnection (el : ElementB) : Except String Connection' :=
  match el.props.head? with
  | none => .error "Invalid connection"
  | some p0 =>
    if ¬ p0.isStr then .error "Invalid connection"
    else if p0.payload = strBytes "OO" then
      match el.props.get? 1, el.props.get? 2 with
      | some p1, some p2 =>
        if p1.isLong ∧ p2.isLong then
          .ok { ctype := .OBJECT_OBJECT, fromId := p1.toU64, toId := p2.toU64 }
        else .error "Invalid OO connection"
      | _, _ => .error "Invalid OO connection"
    else if p0.payload = strBytes "OP" then
      match el.props.get? 1, el.props.get? 2, el.props.get? 3 with
      | some p1, some p2, some p3 =>
        if p1.isLong ∧ p2.isLong then
          .ok { ctype := .OBJECT_PROPERTY, fromId := p1.toU64,
                toId := p2.toU64, property := p3.payload }
        else .error "Invalid OP connection"
      | _, _, _ => .error "Invalid OP connection"
    else if p0.payload = strBytes "PP" then
      match el.props.get? 1, el.props.get? 2, el.props.get? 3,
        el.props.get? 4 with
      | some p1, some p2, some p3, some p4 =>
        if p1.isLong ∧ p2.isStr then
          .ok { ctype := .PROPERTY_PROPERTY, fromId := p1.toU64,
                srcProperty := p2.payload, toId := p3.toU64,
                property := p4.payload }
        else .error "Invalid PP connection"
      | _, _, _, _ => .error "Invalid PP connection"
    else .error "Not supported"

/-- The `Connections` loop. -/
def parseConnectionsList : List ElementB → Except String (List Connection')
  | [] => .ok []
  | el :: rest =>
    match parseOneConnection el with
    | .error e => .error e
    | .ok c =>
      match parseConnectionsList rest with
      | .error e => .error e
      | .ok cs => .ok (c :: cs)

/-- `parseConnections`: missing `Connections` element succeeds with no
edges. -/
def parseConnectionsM (root : ElementB) (sc : SceneS) : Except String SceneS :=
  match findChildE root (strBytes "Connections") with
  | none => .ok sc
  | some conns =>
    match parseConnectionsList conns.children with
    | .error e => .error e
    | .ok cs => .ok { sc with connections := cs }

/-! ## parseTakes (lines 3599-3659) -/

/-- One `Take` child. -/
def parseOneTake (el : ElementB) : Except String TakeInfo' :=
  match el.props.head? with
  | none => .error "Invalid name in take"
  | some p0 =>
    if ¬ p0.isStr then .error "Invalid name in take"
    else
      let t0 : TakeInfo' := { name := p0.payload }
      let step1 : Except String TakeInfo' :=
        match findChildE el (strBytes "FileName") with
        | none => .ok t0
        | some fe =>
          match fe.props.head? with
          | some fp =>
            if fp.isStr then .ok { t0 with filename := fp.payload }
            else .error "Invalid filename in take"
          | none => .error "Invalid filename in take"
      match step1 with
      | .error e => .error e
      | .ok t1 =>
        let step2 : Except String TakeInfo' :=
          match findChildE el (strBytes "LocalTime") with
          | none => .ok t1
          | some le =>
            match le.props.get? 0, le.props.get? 1 with
            | some pa, some pb =>
              if pa.isLong ∧ pb.isLong then
                .ok { t1 with
                      localTimeFrom := fbxTimeToSeconds pa.toU64,
                      localTimeTo := fbxTimeToSeconds pb.toU64 }
              else .error "Invalid local time in take"
            | _, _ => .error "Invalid local time in take"
        match step2 with
        | .error e => .error e
        | .ok t2 =>
          match findChildE el (strBytes "ReferenceTime") with
          | none => .ok t2
          | some re =>
            match re.props.get? 0, re.props.get? 1 with
            | some pa, some pb =>
              if pa.isLong ∧ pb.isLong then
                .ok { t2 with
                      referenceTimeFrom := fbxTimeToSeconds pa.toU64,
                      referenceTimeTo := fbxTimeToSeconds pb.toU64 }
              else .error "Invalid reference time in take"
            | _, _ => .error "Invalid reference time in take"

/-- The `Takes` loop: non-`Take` children are skipped. -/
def parseTakesList : List ElementB → Except String (List TakeInfo')
  | [] => .ok []
  | el :: rest =>
    if el.id = strBytes "Take" then
      match parseOneTake el with
      | .error e => .error e
      | .ok t =>
        match parseTakesList rest with
        | .error e => .error e
        | .ok ts => .ok (t :: ts)
    else parseTakesList rest

/-- `parseTakes`. -/
def parseTakesM (sc : SceneS) : Except String SceneS :=
  match findChildE sc.rootElement (strBytes "Takes") with
  | none => .ok sc
  | some takes =>
    match parseTakesList takes.children with
    | .error e => .error e
    | .ok ts => .ok { sc with takeInfos := ts }

/-! ## parseGlobalSettings (lines 3707-3737) -/

/-- `parseGlobalSettings`: find the first `GlobalSettings` child, its first
`Properties70` child, and the first grandchild whose first property is the
string `TimeMode` (each loop breaks at its first match); read property #4
as a raw `int` (`*(int*)value.begin`) and map it through the frame-rate
table.  Every miss leaves the scene untouched. -/
def parseGlobalSettingsM (root : ElementB) (sc : SceneS) : SceneS :=
  match root.children.find? (fun e => e.id = strBytes "GlobalSettings") with
  | none => sc
  | some settings =>
    match settings.children.find? (fun e => e.id = strBytes "Properties70") with
    | none => sc
    | some props70 =>
      match props70.children.find? (fun tm =>
        match tm.props.head? with
        | some p => p.payload = strBytes "TimeMode"
        | none => false) with
      | none => sc
      | some tm =>
        match tm.getPropertyN 4 with
        | none => sc
        | some p =>
          { sc with sceneFrameRate :=
              getFramerateFromTimeMode (i32OfBytes p.payload) }

/-! ## Binary array property decoding
(`parseArrayRaw` lines 2940-2980, `parseBinaryArray` lines 3100-3125)

The zlib inflater (`decompress`, backed by miniz) is an external
collaborator (spec §1); functions that may decompress take it as an
explicit argument `infl : Inflater` and every theorem quantifies over it.
`infl input outSize` returns the inflated bytes on success (at most
`outSize` of them are used; the source's `decompress` writes into a
zero-initialised buffer of exactly `outSize` bytes). -/

/-- The external inflater. -/
def Inflater : Type := List Nat → Nat → Option (List Nat)

/-- `parseArrayRaw`'s element size switch (lines 2947-2954):
`'l'`/`'d'` → 8, `'f'`/`'i'` → 4, others fail. -/
def elemSizeOf (typ : Nat) : Option Nat :=
  if typ = 108 ∨ typ = 100 then some 8
  else if typ = 102 ∨ typ = 105 then some 4
  else none

/-- `parseArrayRaw` on a binary property, producing the caller's buffer of
exactly `maxSize` bytes (the destination vector is zero-initialised by
`resize`; `memcpy`/`decompress` fill a prefix).  The text-dialect branch
(`parseTextArrayRaw`) is not modelled — no claim involves text-dialect
arrays — and is mapped to failure. -/
def parseArrayRawBytes (infl : Inflater) (p : PropertyB) (maxSize : Nat) :
    Option (List Nat) :=
  if ¬ p.binary then none
  else
    match elemSizeOf p.typ with
    | none => none
    | some elemSize =>
      if p.payload.length < 12 then none
      else
        let count := readU32At p.payload 0
        let enc := readU32At p.payload 4
        let len := readU32At p.payload 8
        if enc = 0 then
          if maxSize < len then none
          else if p.payload.length < 12 + len then none
          else some (sliceBytes p.payload 12 len ++
            List.replicate (maxSize - len) 0)
        else if enc = 1 then
          if maxSize < elemSize * count then none
          else
            match infl (sliceBytes p.payload 12 len) (elemSize * count) with
            | none => none
            | some out =>
              let written := min out.length (elemSize * count)
              some (out.take (elemSize * count) ++
                List.replicate (maxSize - written) 0)
        else none

/-- Split a byte list into `n`-byte groups, fuelled by the list length
(every step consumes at least one byte). -/
def groupBytesF (n : Nat) : Nat → List Nat → List (List Nat)
  | _, [] => []
  | 0, _ :: _ => []
  | fuel + 1, b :: rest =>
    if n = 0 then []
    else (b :: rest.take (n - 1)) :: groupBytesF n fuel (rest.drop (n - 1))

/-- Split a byte list into `n`-byte groups (the typed reinterpretation of
the filled buffer). -/
def groupBytes (n : Nat) (bs : List Nat) : List (List Nat) :=
  groupBytesF n bs.length bs

/-- `getValues` into an `i64` buffer of `maxSize` bytes. -/
def getValuesI64 (infl : Inflater) (p : PropertyB) (maxSize : Nat) :
    Option (List Int) :=
  (parseArrayRawBytes infl p maxSize).map (fun bs =>
    (groupBytes 8 bs).map i64OfBytes)

/-- `getValues` into an `int` buffer of `maxSize` bytes. -/
def getValuesI32 (infl : Inflater) (p : PropertyB) (maxSize : Nat) :
    Option (List Int) :=
  (parseArrayRawBytes infl p maxSize).map (fun bs =>
    (groupBytes 4 bs).map i32OfBytes)

/-- `getValues` into a `float` buffer of `maxSize` bytes. -/
def getValuesF32 (infl : Inflater) (p : PropertyB) (maxSize : Nat) :
    Option (List ℚ) :=
  (parseArrayRawBytes infl p maxSize).map (fun bs =>
    (groupBytes 4 bs).map f32ToRat)

/-- `getValues` into a `double` buffer of `maxSize` bytes. -/
def getValuesF64 (infl : Inflater) (p : PropertyB) (maxSize : Nat) :
    Option (List ℚ) :=
  (parseArrayRawBytes infl p maxSize).map (fun bs =>
    (groupBytes 8 bs).map f64ToRat)

/-- `parseBinaryArray`'s element size switch (lines 3107-3113): only
`'d'` 8, `'f'` 4, `'i'` 4 (`'l'` is rejected). -/
def elemSizeOfBA (typ : Nat) : Option Nat :=
  if typ = 100 then some 8
  else if typ = 102 ∨ typ = 105 then some 4
  else none

/-- `parseBinaryArray<int>` (lines 3100-3125): element size from the tag
(`'d'` 8, `'f'` 4, `'i'` 4; `'l'` is rejected), `elem_count =
sizeof(int)/elem_size`; a `'d'` tag makes `elem_count = 0` and the source
divides by zero (UB) — modelled as failure. -/
def parseBinaryArrayI32 (infl : Inflater) (p : PropertyB) :
    Option (List Int) :=
  if ¬ p.binary then none
  else
    let count := p.getCount
    match elemSizeOfBA p.typ with
    | none => none
    | some elemSize =>
      let elemCount := 4 / elemSize
      if elemCount = 0 then none
      else
        let n := count / elemCount
        if count = 0 then some []
        else getValuesI32 infl p (4 * n)

/-- `parseBinaryArray<double>`: `elem_count = sizeof(double)/elem_size`. -/
def parseBinaryArrayF64 (infl : Inflater) (p : PropertyB) :
    Option (List ℚ) :=
  if ¬ p.binary then none
  else
    let count := p.getCount
    match elemSizeOfBA p.typ with
    | none => none
    | some elemSize =>
      let elemCount := 8 / elemSize
      let n := count / elemCount
      if count = 0 then some []
      else getValuesF64 infl p (8 * n)

/-! ## parseAnimationCurve (lines 3279-3333) -/

/-- `parseAnimationCurve`.  Faithful to the source, including its quirk:
when a `KeyAttrFlags` child is present, the length test and the reads both
go through the `KeyValueFloat` element's first property (`values->...`),
not the flags element — so the flag ints are the value floats
reinterpreted, and the scalar-broadcast branch is unreachable whenever the
values element parsed (its resize already made
`values.size() == values->getCount()`).  If flags are present but the
values element (or its first property) is missing, the source dereferences
a null pointer; that is modelled as a parse failure. -/
def parseAnimationCurveM (infl : Inflater) (element : ElementB) :
    Except String AnimationCurveImpl :=
  let timesE := findChildE element (strBytes "KeyTime")
  let valuesE := findChildE element (strBytes "KeyValueFloat")
  let flagsE := findChildE element (strBytes "KeyAttrFlags")
  let timesR : Except String (List Int) :=
    match timesE with
    | some te =>
      match te.props.head? with
      | some tp =>
        match getValuesI64 infl tp (tp.getCount * 8) with
        | none => .error "Invalid animation curve"
        | some ts => .ok ts
      | none => .ok []
    | none => .ok []
  match timesR with
  | .error e => .error e
  | .ok times =>
    let valuesR : Except String (List ℚ) :=
      match valuesE with
      | some ve =>
        match ve.props.head? with
        | some vp =>
          match getValuesF32 infl vp (vp.getCount * 4) with
          | none => .error "Invalid animation curve"
          | some vs => .ok vs
        | none => .ok []
      | none => .ok []
    match valuesR with
    | .error e => .error e
    | .ok values =>
      let flagsR : Except String (List Int) :=
        match flagsE with
        | some fe =>
          match fe.props.head? with
          | some _ =>
            match valuesE with
            | some ve =>
              match ve.props.head? with
              | some vp =>
                if values.length = vp.getCount then
                  match getValuesI32 infl vp (vp.getCount * 4) with
                  | none => .error "Invalid animation curve"
                  | some fs => .ok fs
                else if vp.getCount = 1 then
                  match getValuesI32 infl vp 4 with
                  | none => .error "Invalid animation curve"
                  | some vs => .ok (List.replicate values.length (zget vs 0))
                else .error "Invalid animation curve"
              | none => .error "Invalid animation curve"
            | none => .error "Invalid animation curve"
          | none => .ok []
        | none => .ok []
      match flagsR with
      | .error e => .error e
      | .ok flags =>
        if times.length ≠ values.length then .error "Invalid animation curve"
        else .ok (AnimationCurveImpl.fresh times values flags)

/-! ## Typed-object factories (`parseCluster` etc., lines 2780-2935,
`parseGeometry` lines 3366-3502)

Object construction is modelled at the kind level: the discriminant checks
and failure modes are mirrored, while construction-time payloads that no
claim observes (camera/light parameters, material colour slots,
property-slot declarations) are left at their defaults.  The geometry
payloads the claims do concern — triangulation and the old→new multimap —
are built with the `triangulate`/`addNV` definitions above. -/

/-- The `Object` constructor's name initialisation (lines 361-369): the
second property's string, truncated like `toString` (stop at a NUL, at
most 127 bytes). -/
def objectNameOf (el : ElementB) : List Nat :=
  match el.props.get? 1 with
  | some p => (p.payload.takeWhile (fun b => b ≠ 0)).take 127
  | none => []

/-- A typed object with the common header fields filled in. -/
def mkObj (ty : ObjType) (el : ElementB) (node : Bool) : TObj :=
  { ty := ty, name := objectNameOf el, isNode := node, element := el }

/-- `parseCluster` (lines 2837-2861): decode the optional
`TransformLink`/`Transform` 16-double matrices. -/
def parseClusterM (infl : Inflater) (el : ElementB) : Except String TObj :=
  let base := mkObj .CLUSTER el false
  let step1 : Except String TObj :=
    match findChildE el (strBytes "TransformLink") with
    | some te =>
      match te.props.head? with
      | some p =>
        match parseArrayRawBytes infl p 128 with
        | none => .error "Failed to parse TransformLink"
        | some bs =>
          .ok { base with clusterTransformLink := (groupBytes 8 bs).map f64ToRat }
      | none => .ok base
    | none => .ok base
  match step1 with
  | .error e => .error e
  | .ok obj =>
    match findChildE el (strBytes "Transform") with
    | some te =>
      match te.props.head? with
      | some p =>
        match parseArrayRawBytes infl p 128 with
        | none => .error "Failed to parse Transform"
        | some bs =>
          .ok { obj with clusterTransform := (groupBytes 8 bs).map f64ToRat }
      | none => .ok obj
    | none => .ok obj

/-- `parseNodeAttribute` (lines 2864-2873). -/
def parseNodeAttributeM (el : ElementB) : TObj :=
  let base := mkObj .NODE_ATTRIBUTE el false
  match findChildE el (strBytes "TypeFlags") with
  | some te =>
    match te.props.head? with
    | some p => { base with nodeAttrType := p.payload }
    | none => base
  | none => base

/-- `parseLimbNode` (lines 2876-2888): the third property must be the
string `LimbNode`. -/
def parseLimbNodeM (el : ElementB) : Except String TObj :=
  match el.props.get? 0, el.props.get? 1, el.props.get? 2 with
  | some _, some _, some p2 =>
    if p2.payload = strBytes "LimbNode" then .ok (mkObj .LIMB_NODE el true)
    else .error "Invalid limb node"
  | _, _, _ => .error "Invalid limb node"

/-- `parseMesh` (lines 2891-2902): the third property must be the string
`Mesh`. -/
def parseMeshM (el : ElementB) : Except String TObj :=
  match el.props.get? 0, el.props.get? 1, el.props.get? 2 with
  | some _, some _, some p2 =>
    if p2.payload = strBytes "Mesh" then .ok (mkObj .MESH el true)
    else .error "Invalid mesh"
  | _, _, _ => .error "Invalid mesh"

/-- `parseAnimationStack` (lines 2911-2936): scan `Properties70` for
`LocalStart`/`LocalStop`; `prop->getProperty(4)` is dereferenced without a
null check (UB on malformed input), modelled as failure. -/
def parseAnimationStackProps (obj : TObj) :
    List ElementB → Except String TObj
  | [] => .ok obj
  | pr :: rest =>
    if pr.id = strBytes "P" then
      match pr.props.head? with
      | some p0 =>
        if p0.payload = strBytes "LocalStart" then
          match pr.getPropertyN 4 with
          | none => .error "Invalid animation stack"
          | some p4 =>
            parseAnimationStackProps { obj with stackLoopStart := p4.toU64 } rest
        else if p0.payload = strBytes "LocalStop" then
          match pr.getPropertyN 4 with
          | none => .error "Invalid animation stack"
          | some p4 =>
            parseAnimationStackProps { obj with stackLoopStop := p4.toU64 } rest
        else parseAnimationStackProps obj rest
      | none => parseAnimationStackProps obj rest
    else parseAnimationStackProps obj rest

/-- `parseAnimationStack` driver. -/
def parseAnimationStackM (el : ElementB) : Except String TObj :=
  let base := mkObj .ANIMATION_STACK el false
  let base := { base with
                stackLoopStart := 0,
                stackLoopStop := 4 * 46186158000 }
  match findChildE el (strBytes "Properties70") with
  | none => .ok base
  | some prop => parseAnimationStackProps base prop.children

/-- Build `to_new_vertices` (lines 3392-3398): size of the original vertex
array, then `add(to_new_vertices[old], i)` per triangulated corner.  An
out-of-range `old` (the source reads the vector unchecked — UB) is
skipped. -/
def buildToNew (size : Nat) (toOld : List Int) : List NewVertex :=
  toOld.enum.foldl (fun acc pr =>
    if h : 0 ≤ pr.2 ∧ pr.2.toNat < acc.length then
      acc.set pr.2.toNat (addNV (acc.get ⟨pr.2.toNat, h.2⟩) (pr.1 : Int))
    else acc)
    (List.replicate size NewVertex.dflt)

/-- `parseDoubleVecData` flattened to a list of doubles: tag `'d'` decodes
directly, tag `'f'` decodes floats and widens (lines 3128-3154); the text
branch is not modelled. -/
def parseDoubleVecDataFlat (infl : Inflater) (p : PropertyB) :
    Option (List ℚ) :=
  if ¬ p.binary then none
  else if p.typ = 100 then
    parseBinaryArrayF64 infl p
  else
    -- assert(property.type == 'f'): decode floats, then widen
    let count := p.getCount
    if count = 0 then some []
    else (getValuesF32 infl p (4 * count)).map id

/-- `parseGeometry` (lines 3366-3502), modelled up to the vertex/index
decoding, triangulation and the old→new multimap.  The per-layer attribute
sections (materials, UVs, tangents, colors, normals, lines 3400-3499) are
exercised by no claim and are modelled at the function level by
`splat`/`remap` above; their failure modes are not reproduced here. -/
def parseGeometryM (infl : Inflater) (el : ElementB) : Except String TObj :=
  match findChildE el (strBytes "Vertices") with
  | none => .error "Vertices missing"
  | some ve =>
    match ve.props.head? with
    | none => .error "Vertices missing"
    | some vp =>
      match findChildE el (strBytes "PolygonVertexIndex") with
      | none => .error "Indices missing"
      | some pe =>
        match pe.props.head? with
        | none => .error "Indices missing"
        | some pp =>
          match parseDoubleVecDataFlat infl vp with
          | none => .error "Failed to parse vertices"
          | some flat =>
            match parseBinaryArrayI32 infl pp with
            | none => .error "Failed to parse indices"
            | some original_indices =>
              let tri := triangulate original_indices
              let base := mkObj .GEOMETRY el false
              .ok { base with
                    geomToOldVertices := tri.1,
                    geomToNew := buildToNew (flat.length / 3) tri.1 }

/-- `parseTexture` (lines 2780-2795): filename views are not observed by
any claim. -/
def parseTextureM (el : ElementB) : TObj := mkObj .TEXTURE el false

/-- `parseGeneric` (lines 2796-2822): scan `Properties70` for a
`MoBuTypeName` entry whose fifth property is `Shader`;
`prop->getProperty(4)` is dereferenced without a null check, modelled as
failure. -/
def parseGenericProps (el : ElementB) :
    List ElementB → Except String (Option TObj)
  | [] => .ok none
  | pr :: rest =>
    if pr.id = strBytes "P" then
      match pr.props.head? with
      | some p0 =>
        if p0.payload = strBytes "MoBuTypeName" then
          match pr.getPropertyN 4 with
          | none => .error "Invalid generic"
          | some p4 =>
            if p4.payload = strBytes "Shader" then
              .ok (some (mkObj .SHADER el false))
            else parseGenericProps el rest
        else parseGenericProps el rest
      | none => parseGenericProps el rest
    else parseGenericProps el rest

/-- `parseGeneric` driver. -/
def parseGenericM (el : ElementB) : Except String (Option TObj) :=
  match findChildE el (strBytes "Properties70") with
  | none => .ok none
  | some prop => parseGenericProps el prop.children

/-! ## Factory dispatch (`parseObjects` object loop, lines 3763-3918) -/

/-- The per-entry dispatch on `element.id` and the class discriminant
(`getProperty(2)`), including the per-kind indexed-list pushes.  Returns
the updated scene and the constructed object (`none` when the entry stays
untyped). -/
def dispatchObject (infl : Inflater) (sc : SceneS) (id : Nat)
    (el : ElementB) : Except String (SceneS × Option TObj) :=
  if el.id = strBytes "Geometry" then
    -- `last_prop` walk: the source dereferences `first_property` (UB when
    -- there are no properties; modelled as failure)
    match el.props.getLast? with
    | none => .error "Invalid geometry"
    | some lastP =>
      if lastP.payload = strBytes "Mesh" then
        match parseGeometryM infl el with
        | .error e => .error e
        | .ok obj => .ok (sc, some obj)
      else .ok (sc, none)
  else if el.id = strBytes "Material" then
    .ok ({ sc with materials := sc.materials ++ [id] }, some (mkObj .MATERIAL el false))
  else if el.id = strBytes "Constraint" then
    match el.getPropertyN 2 with
    | none => .ok (sc, none)
    | some cp =>
      let obj := if cp.payload = strBytes "Position From Positions" then
          mkObj .CONSTRAINT_POSITION el false
        else mkObj .CONSTRAINT el false
      .ok ({ sc with constraints := sc.constraints ++ [id] }, some obj)
  else if el.id = strBytes "AnimationStack" then
    match parseAnimationStackM el with
    | .error e => .error e
    | .ok obj =>
      .ok ({ sc with animationStacks := sc.animationStacks ++ [id] }, some obj)
  else if el.id = strBytes "AnimationLayer" then
    .ok (sc, some (mkObj .ANIMATION_LAYER el false))
  else if el.id = strBytes "AnimationCurve" then
    match parseAnimationCurveM infl el with
    | .error e => .error e
    | .ok c =>
      .ok (sc, some { mkObj .ANIMATION_CURVE el false with curve := some c })
  else if el.id = strBytes "AnimationCurveNode" then
    .ok (sc, some (mkObj .ANIMATION_CURVE_NODE el false))
  else if el.id = strBytes "Deformer" then
    match el.getPropertyN 2 with
    | none => .ok (sc, none)
    | some cp =>
      if cp.payload = strBytes "Cluster" then
        match parseClusterM infl el with
        | .error e => .error e
        | .ok obj => .ok (sc, some obj)
      else if cp.payload = strBytes "Skin" then
        .ok (sc, some (mkObj .SKIN el false))
      else .ok (sc, none)
  else if el.id = strBytes "NodeAttribute" then
    .ok (sc, some (parseNodeAttributeM el))
  else if el.id = strBytes "Model" then
    match el.getPropertyN 2 with
    | none => .ok (sc, none)
    | some cp =>
      if cp.payload = strBytes "Mesh" then
        match parseMeshM el with
        | .error e => .error e
        | .ok obj => .ok ({ sc with meshes := sc.meshes ++ [id] }, some obj)
      else if cp.payload = strBytes "LimbNode" then
        match parseLimbNodeM el with
        | .error e => .error e
        | .ok obj => .ok (sc, some obj)
      else if cp.payload = strBytes "Null" ∨ cp.payload = strBytes "Root" then
        .ok (sc, some (mkObj .NULL_NODE el true))
      else if cp.payload = strBytes "Camera" then
        .ok ({ sc with cameras := sc.cameras ++ [id] }, some (mkObj .CAMERA el true))
      else if cp.payload = strBytes "Light" then
        .ok ({ sc with lights := sc.lights ++ [id] }, some (mkObj .LIGHT el true))
      else .ok (sc, none)
  else if el.id = strBytes "Texture" then
    .ok (sc, some (parseTextureM el))
  else if el.id = strBytes "MotionBuilder_Generic" then
    match parseGenericM el with
    | .error e => .error e
    | .ok obj? =>
      match obj? with
      | some obj => .ok ({ sc with shaders := sc.shaders ++ [id] }, some obj)
      | none => .ok (sc, none)
  else .ok (sc, none)

/-! ## Connection resolver (`parseObjects` connection loop,
lines 3920-4121)

The source mutates objects through pointers into the object map; the model
threads the map, re-reading an object before each mutation so that
aliasing (including self-connections) behaves identically. -/

/-- The object-property attach of the `OBJECT_PROPERTY` branch
(lines 3939-3948): set the first object-typed slot with the connection's
property name. -/
def setSlotObj : List PropSlot → List Nat → Nat → List PropSlot
  | [], _, _ => []
  | s :: rest, name, v =>
    if s.name = name ∧ s.isObject then { s with objValue := some v } :: rest
    else s :: setSlotObj rest name v

/-- The animatable attach (lines 3988-3997): extend the first animatable
slot with the connection's property name. -/
def attachSlotAnim : List PropSlot → List Nat → Nat → List PropSlot
  | [], _, _ => []
  | s :: rest, name, v =>
    if s.name = name ∧ s.animatable then
      { s with animNodes := s.animNodes ++ [v] } :: rest
    else s :: attachSlotAnim rest name v

/-- The curve-node mode from the connection's property name
(lines 3975-3984; no match keeps the current mode). -/
def modeOfUpd (property : List Nat) (cur : AnimationNodeType) :
    AnimationNodeType :=
  if property = strBytes "Lcl Translation" then .translation
  else if property = strBytes "Lcl Rotation" then .rotation
  else if property = strBytes "Lcl Scaling" then .scaling
  else if property = strBytes "Visibility" then .visibility
  else if property = strBytes "Field Of View" then .fieldOfView
  else cur

/-- Stage 1 (lines 3929-3950): on an `OP` connection whose child is neither
a curve node nor a node attribute, bind the named object-reference slot on
the parent. -/
def applyConnStage1 (sc : SceneS) (con : Connection') : SceneS :=
  match lookupObj sc con.toId, lookupObj sc con.fromId with
  | some parent, some child =>
    if con.ctype = ConnType.OBJECT_PROPERTY ∧
        child.ty ≠ ObjType.ANIMATION_CURVE_NODE ∧
        child.ty ≠ ObjType.NODE_ATTRIBUTE then
      { sc with objectMap := mapSetObj sc.objectMap con.toId (
          { parent with props := setSlotObj parent.props con.property con.fromId }) }
    else sc
  | _, _ => sc

/-- Stage 2, the `switch (child->getType())` (lines 3954-3999): a second
node attribute is fatal; a curve node is wired to its owner (mode, bone
link, `mAnimationNodes`) and attached to the matching animatable slot. -/
def applyConnStage2 (sc : SceneS) (con : Connection') :
    Except String SceneS :=
  match lookupObj sc con.fromId, lookupObj sc con.toId with
  | some child, some parent =>
    match child.ty with
    | .NODE_ATTRIBUTE =>
      if parent.nodeAttr.isSome then .error "Invalid node attribute"
      else .ok { sc with objectMap := mapSetObj sc.objectMap con.toId (
          { parent with nodeAttr := some con.fromId }) }
    | .ANIMATION_CURVE_NODE =>
      let sc1 :=
        if parent.isNode then
          let child' := { child with
            acnOwner := some con.toId,
            acnBoneLink := con.property,
            acnMode := modeOfUpd con.property child.acnMode }
          let m1 := mapSetObj sc.objectMap con.fromId child'
          match (mapFind m1 con.toId).bind (fun pr => pr.object) with
          | some parent1 =>
            let parent1' := { parent1 with
              animNodesOnModel := parent1.animNodesOnModel ++ [con.fromId] }
            { sc with objectMap := mapSetObj m1 con.toId parent1' }
          | none => { sc with objectMap := m1 }
        else sc
      match lookupObj sc1 con.toId with
      | some parent2 =>
        let parent2' := { parent2 with
          props := attachSlotAnim parent2.props con.property con.fromId }
        .ok { sc1 with objectMap := mapSetObj sc1.objectMap con.toId parent2' }
      | none => .ok sc1
    | _ => .ok sc
  | _, _ => .ok sc

/-- Stage 3, the `switch (parent->getType())` (lines 4001-4120): the
containment routing table with its duplicate-binding checks. -/
def applyConnStage3 (sc : SceneS) (con : Connection') :
    Except String SceneS :=
  match lookupObj sc con.toId, lookupObj sc con.fromId with
  | some parent, some child =>
    match parent.ty with
    | .MESH =>
      match child.ty with
      | .GEOMETRY =>
        if parent.meshGeometry.isSome then .error "Invalid mesh"
        else .ok { sc with objectMap := mapSetObj sc.objectMap con.toId (
            { parent with meshGeometry := some con.fromId }) }
      | .MATERIAL =>
        .ok { sc with objectMap := mapSetObj sc.objectMap con.toId (
            { parent with meshMaterials := parent.meshMaterials ++ [con.fromId] }) }
      | _ => .ok sc
    | .SKIN =>
      if child.ty = ObjType.CLUSTER then
        -- the push happens before the duplicate check, as in the source
        let m1 := mapSetObj sc.objectMap con.toId (
          { parent with skinClusters := parent.skinClusters ++ [con.fromId] })
        match (mapFind m1 con.fromId).bind (fun pr => pr.object) with
        | some child1 =>
          if child1.clusterSkin.isSome then .error "Invalid cluster"
          else .ok { sc with objectMap := mapSetObj m1 con.fromId (
              { child1 with clusterSkin := some con.toId }) }
        | none => .ok { sc with objectMap := m1 }
      else .ok sc
    | .MATERIAL =>
      if child.ty = ObjType.TEXTURE then
        if con.property = strBytes "NormalMap" then
          if parent.texNormal.isSome then .error "Invalid material"
          else .ok { sc with objectMap := mapSetObj sc.objectMap con.toId (
              { parent with texNormal := some con.fromId }) }
        else if con.property = strBytes "DiffuseColor" then
          if parent.texDiffuse.isSome then .error "Invalid material"
          else .ok { sc with objectMap := mapSetObj sc.objectMap con.toId (
              { parent with texDiffuse := some con.fromId }) }
        else .ok sc
      else .ok sc
    | .GEOMETRY =>
      if child.ty = ObjType.SKIN then
        .ok { sc with objectMap := mapSetObj sc.objectMap con.toId (
            { parent with geomSkin := some con.fromId }) }
      else .ok sc
    | .CLUSTER =>
      if child.ty = ObjType.LIMB_NODE ∨ child.ty = ObjType.MESH ∨
          child.ty = ObjType.NULL_NODE then
        if parent.clusterLink.isSome then .error "Invalid cluster"
        else .ok { sc with objectMap := mapSetObj sc.objectMap con.toId (
            { parent with clusterLink := some con.fromId }) }
      else .ok sc
    | .ANIMATION_STACK =>
      if child.ty = ObjType.ANIMATION_LAYER then
        .ok { sc with objectMap := mapSetObj sc.objectMap con.toId (
            { parent with stackLayers := parent.stackLayers ++ [con.fromId] }) }
      else .ok sc
    | .ANIMATION_LAYER =>
      if child.ty = ObjType.ANIMATION_CURVE_NODE then
        let m1 := mapSetObj sc.objectMap con.fromId (
          { child with acnLayer := some con.toId })
        match (mapFind m1 con.toId).bind (fun pr => pr.object) with
        | some parent1 =>
          let parent1' := { parent1 with
            layerCurveNodes := parent1.layerCurveNodes ++ [con.fromId] }
          .ok { sc with objectMap := mapSetObj m1 con.toId parent1' }
        | none => .ok { sc with objectMap := m1 }
      else if child.ty = ObjType.ANIMATION_LAYER then
        let m1 := mapSetObj sc.objectMap con.fromId (
          { child with layerParent := some con.toId })
        match (mapFind m1 con.toId).bind (fun pr => pr.object) with
        | some parent1 =>
          let parent1' := { parent1 with
            layerSublayers := parent1.layerSublayers ++ [con.fromId] }
          .ok { sc with objectMap := mapSetObj m1 con.toId parent1' }
        | none => .ok { sc with objectMap := m1 }
      else .ok sc
    | .ANIMATION_CURVE_NODE =>
      if child.ty = ObjType.ANIMATION_CURVE then
        -- AttachCurve (lines 2672-2684) fails once three curves are bound
        if parent.acnCurves.length < 3 then
          .ok { sc with objectMap := mapSetObj sc.objectMap con.toId (
              { parent with acnCurves := parent.acnCurves ++ [con.fromId] }) }
        else .error "Invalid animation node"
      else .ok sc
    | _ => .ok sc
  | _, _ => .ok sc

/-- One connection (the loop body, lines 3920-4121): a missing endpoint is
skipped silently; otherwise the three stages run in order. -/
def applyConnectionM (sc : SceneS) (con : Connection') :
    Except String SceneS :=
  match lookupObj sc con.fromId with
  | none => .ok sc
  | some _ =>
    match lookupObj sc con.toId with
    | none => .ok sc
    | some _ =>
      let sc1 := applyConnStage1 sc con
      match applyConnStage2 sc1 con with
      | .error e => .error e
      | .ok sc2 => applyConnStage3 sc2 con

/-- The full forward pass over the connection table. -/
def resolveConnectionsM (sc : SceneS) : List Connection' →
    Except String SceneS
  | [] => .ok sc
  | con :: rest =>
    match applyConnectionM sc con with
    | .error e => .error e
    | .ok sc1 => resolveConnectionsM sc1 rest

/-! ## Cluster post-processing in the pipeline and the retrieve loop
(lines 4123-4175) -/

/-- `Object::resolveObjectLinkReverse` (lines 4293-4305): the object's own
file id is its element's first property; scan the connection table for an
edge leaving it whose target has the wanted type.  A target id missing
from the map makes the source dereference `find()`'s end iterator (UB);
modelled as a skip. -/
def resolveObjectLinkReverseM (sc : SceneS) (obj : TObj) (t : ObjType) :
    List Connection' → Option TObj
  | [] => none
  | con :: rest =>
    let selfId := match obj.element.props.head? with
      | some p => p.toU64
      | none => 0
    if con.fromId = selfId ∧ con.toId ≠ 0 then
      match lookupObj sc con.toId with
      | some o =>
        if o.ty = t then some o
        else resolveObjectLinkReverseM sc obj t rest
      | none => resolveObjectLinkReverseM sc obj t rest
    else resolveObjectLinkReverseM sc obj t rest

/-- `ClusterImpl::postprocess` (lines 2120-2162) against the scene state:
locate the geometry through the skin's reverse link, decode
`Indexes`/`Weights`, and expand through the old→new multimap.  A cluster
with no skin back-reference hits `assert(skin)` and then dereferences null
in the source; modelled as failure. -/
def clusterPostprocessM (infl : Inflater) (sc : SceneS) (cluster : TObj) :
    Option (List Int × List ℚ) :=
  match cluster.clusterSkin with
  | none => none
  | some skinId =>
    match lookupObj sc skinId with
    | none => none
    | some skinObj =>
      match resolveObjectLinkReverseM sc skinObj .GEOMETRY sc.connections with
      | none => none
      | some geom =>
        let idxR : Option (List Int) :=
          match findChildE cluster.element (strBytes "Indexes") with
          | some ie =>
            match ie.props.head? with
            | some p => parseBinaryArrayI32 infl p
            | none => some []
          | none => some []
        match idxR with
        | none => none
        | some old_indices =>
          let wR : Option (List ℚ) :=
            match findChildE cluster.element (strBytes "Weights") with
            | some we =>
              match we.props.head? with
              | some p => parseBinaryArrayF64 infl p
              | none => some []
            | none => some []
          match wR with
          | none => none
          | some old_weights =>
            if old_indices.length ≠ old_weights.length then none
            else some (clusterExpand geom.geomToNew
              (old_indices.zip old_weights))

/-- `AnimationStackImpl::sortLayers` (lines 4530-4539): sort the layer list
by each layer's `LayerID`.  (`std::sort` is unstable; `LayerID` itself is
retrieved from property slots that are not modelled, so all keys are the
default here.) -/
def sortLayersByID (sc : SceneS) (ids : List Nat) : List Nat :=
  ids.mergeSort (fun a b =>
    (match lookupObj sc a with | some o => o.layerID | none => 0) ≤
    (match lookupObj sc b with | some o => o.layerID | none => 0))

/-- The retrieve / post-process loop (lines 4123-4175), iterating the
object map.  `Retrieve()` copies property defaults into slots that are not
modelled; the parent/child hierarchy pre-caching (lines 4157-4174) only
fills navigation pointers observed by no claim. -/
def retrieveLoop (infl : Inflater) : List Nat → SceneS →
    Except String SceneS
  | [], sc => .ok sc
  | id :: rest, sc =>
    match lookupObj sc id with
    | none => retrieveLoop infl rest sc
    | some obj =>
      if obj.ty = ObjType.CLUSTER then
        match clusterPostprocessM infl sc obj with
        | none => .error "Failed to postprocess cluster"
        | some pr =>
          retrieveLoop infl rest
            { sc with objectMap := mapSetObj sc.objectMap id (
                { obj with clusterIndices := pr.1, clusterWeights := pr.2 }) }
      else if obj.ty = ObjType.ANIMATION_STACK then
        retrieveLoop infl rest
          { sc with objectMap := mapSetObj sc.objectMap id (
              { obj with stackLayers := sortLayersByID sc obj.stackLayers }) }
      else retrieveLoop infl rest sc

/-! ## parseObjects (lines 3740-4179) and load (lines 4477-4500) -/

/-- The id-map seeding loop (lines 3749-3761): every child of `Objects`
must carry a long first property. -/
def seedObjectsLoop : List ElementB → SceneS → Except String SceneS
  | [], sc => .ok sc
  | object :: rest, sc =>
    match object.props.head? with
    | some p =>
      if p.isLong then
        seedObjectsLoop rest
          { sc with objectMap := mapSet sc.objectMap p.toU64 ⟨object, none⟩ }
      else .error "Invalid"
    | none => .error "Invalid"

/-- The factory loop over the seeded map (lines 3763-3918): skip the
synthetic root entry, dispatch every other entry, store the object, give it
its file id, and append it to `m_all_objects`. -/
def dispatchLoop (infl : Inflater) :
    List (Nat × ObjectPair) → SceneS → Except String SceneS
  | [], sc => .ok sc
  | (id, pair) :: rest, sc =>
    match pair.object with
    | some o =>
      if o.isSceneRoot then dispatchLoop infl rest sc
      else
        match dispatchObject infl sc id pair.element with
        | .error e => .error e
        | .ok (sc1, obj?) =>
          let newPair : ObjectPair :=
            ⟨pair.element, obj?.map (fun o => { o with id := id })⟩
          let sc2 := { sc1 with objectMap := mapSet sc1.objectMap id newPair }
          let sc3 := match obj? with
            | some _ => { sc2 with allObjects := sc2.allObjects ++ [id] }
            | none => sc2
          dispatchLoop infl rest sc3
    | none =>
      match dispatchObject infl sc id pair.element with
      | .error e => .error e
      | .ok (sc1, obj?) =>
        let newPair : ObjectPair :=
          ⟨pair.element, obj?.map (fun o => { o with id := id })⟩
        let sc2 := { sc1 with objectMap := mapSet sc1.objectMap id newPair }
        let sc3 := match obj? with
          | some _ => { sc2 with allObjects := sc2.allObjects ++ [id] }
          | none => sc2
        dispatchLoop infl rest sc3

/-- `parseObjects` (lines 3740-4179).  Without an `Objects` element it
returns immediately — in particular no synthetic root is created.  With
one, it seeds id 0 with the synthetic `Root` (named `RootNode`,
`is_node = true`), inserts every object id, runs the factory dispatch, the
connection resolver and the retrieve/post-process loop. -/
def parseObjectsM (infl : Inflater) (root : ElementB) (sc : SceneS) :
    Except String SceneS :=
  match findChildE root (strBytes "Objects") with
  | none => .ok sc
  | some objs =>
    let rootObj : TObj :=
      { ty := .ROOT, name := strBytes "RootNode", isNode := true,
        isSceneRoot := true, element := root, id := 0 }
    let sc0 := { sc with
                 root? := some rootObj,
                 objectMap := mapSet sc.objectMap 0 ⟨root, some rootObj⟩ }
    match seedObjectsLoop objs.children sc0 with
    | .error e => .error e
    | .ok sc1 =>
      match dispatchLoop infl sc1.objectMap sc1 with
      | .error e => .error e
      | .ok sc2 =>
        match resolveConnectionsM sc2 sc2.connections with
        | .error e => .error e
        | .ok sc3 => retrieveLoop infl (sc3.objectMap.map (fun kv => kv.1)) sc3

/-- `load` (lines 4477-4500).  On a binary tokenizer failure the source
retries with the text tokenizer; the text dialect is exercised by no claim
and is not modelled, so that retry path collapses to failure here.  Every
later stage failure destroys the partial scene and returns null. -/
def loadM (infl : Inflater) (data : List Nat) : Option SceneS :=
  match tokenizeM data with
  | none => none
  | some root =>
    match parseConnectionsM root { rootElement := root } with
    | .error _ => none
    | .ok sc1 =>
      match parseTakesM sc1 with
      | .error _ => none
      | .ok sc2 =>
        match parseObjectsM infl root sc2 with
        | .error _ => none
        | .ok sc3 => some (parseGlobalSettingsM root sc3)

/-! ## Concrete inputs -/

/-- The little-endian bytes of a `u32`. -/
def u32LEBytes (n : Nat) : List Nat :=
  [n % 256, n / 256 % 256, n / 65536 % 256, n / 16777216 % 256]

/-- The 27-byte binary FBX header: magic
`"Kaydara FBX Binary  \0"`, `0x1A 0x00`, and the version. -/
def fbxHeaderBytes (version : Nat) : List Nat :=
  strBytes "Kaydara FBX Binary  " ++ [0, 26, 0] ++ u32LEBytes version

/-- E1: a version-7400 header, an empty top-level sibling list terminated
by a zero offset, and the (ignored) 13-byte sentinel. -/
def e1Bytes : List Nat :=
  fbxHeaderBytes 7400 ++ [0, 0, 0, 0] ++ List.replicate 13 0

/-- A root element whose only child is an empty `Objects` element. -/
def rootWithEmptyObjects : ElementB :=
  .mk [] [] [.mk (strBytes "Objects") [] []]

/-- An inflater that always fails — usable wherever no compressed array is
decoded. -/
def inflNone : Inflater := fun _ _ => none

/-- The little-endian bytes of an `i64` value (non-negative inputs). -/
def i64LEBytes (n : Nat) : List Nat :=
  [n % 256, n / 256 % 256, n / 2 ^ 16 % 256, n / 2 ^ 24 % 256,
   n / 2 ^ 32 % 256, n / 2 ^ 40 % 256, n / 2 ^ 48 % 256, n / 2 ^ 56 % 256]

/-- A `KeyTime` property: an uncompressed (encoding 0) `i64` array holding
`[10, 0]` — two keys whose times DECREASE. -/
def nonMonotoneTimesProp : PropertyB :=
  { typ := 108,
    payload := u32LEBytes 2 ++ u32LEBytes 0 ++ u32LEBytes 16 ++
      i64LEBytes 10 ++ i64LEBytes 0 }

/-- A `KeyValueFloat` property: an uncompressed `f32` array holding
`[1.0, 2.0]`. -/
def twoValuesProp : PropertyB :=
  { typ := 102,
    payload := u32LEBytes 2 ++ u32LEBytes 0 ++ u32LEBytes 8 ++
      [0, 0, 128, 63] ++ [0, 0, 0, 64] }

/-- An `AnimationCurve` element whose key times `[10, 0]` are not
monotonic. -/
def nonMonotoneCurveElem : ElementB :=
  .mk (strBytes "AnimationCurve") []
    [.mk (strBytes "KeyTime") [nonMonotoneTimesProp] [],
     .mk (strBytes "KeyValueFloat") [twoValuesProp] []]

/-- A binary `S` property holding a string. -/
def strProp (s : String) : PropertyB := { typ := 83, payload := strBytes s }

/-- A binary `I` property holding an `i32`. -/
def i32Prop (n : Nat) : PropertyB := { typ := 105, payload := u32LEBytes n }

/-- A `Properties70` entry declaring `TimeMode` = 11 (24 fps): the value is
property #4, read as a raw `int`. -/
def timeModeP11 : ElementB :=
  .mk (strBytes "P")
    [strProp "TimeMode", strProp "KTime", strProp "Time", strProp "",
     i32Prop 11] []

/-- A root whose `GlobalSettings/Properties70` declares `TimeMode` = 11. -/
def globalSettingsRoot : ElementB :=
  .mk [] []
    [.mk (strBytes "GlobalSettings") []
      [.mk (strBytes "Properties70") [] [timeModeP11]]]

/-- An object-map pair carrying a typed object. -/
def pairOf (o : TObj) : ObjectPair := ⟨ElementB.empty, some o⟩

/-- A mesh that already has a geometry bound. -/
def meshWithGeometry : TObj := { ty := .MESH, meshGeometry := some 7 }

/-- A bare geometry object. -/
def plainGeometry : TObj := { ty := .GEOMETRY }

/-- A limb node that already has a node attribute bound. -/
def limbWithAttr : TObj := { ty := .LIMB_NODE, nodeAttr := some 9 }

/-- A bare node attribute. -/
def plainAttr : TObj := { ty := .NODE_ATTRIBUTE }

/-- A cluster that already has a link bone bound. -/
def clusterWithLink : TObj := { ty := .CLUSTER, clusterLink := some 8 }

/-- A bare limb node. -/
def plainLimb : TObj := { ty := .LIMB_NODE }

/-- A material that already has a diffuse texture bound. -/
def matWithDiffuse : TObj := { ty := .MATERIAL, texDiffuse := some 5 }

/-- A material that already has a normal-map texture bound. -/
def matWithNormal : TObj := { ty := .MATERIAL, texNormal := some 6 }

/-- A bare texture. -/
def plainTexture : TObj := { ty := .TEXTURE }

/-- A scene whose map pairs each partially-bound parent with a fresh child
of the single-binding kind. -/
def dupScene : SceneS :=
  { objectMap :=
      [(1, pairOf meshWithGeometry), (2, pairOf plainGeometry),
       (3, pairOf limbWithAttr), (4, pairOf plainAttr),
       (5, pairOf clusterWithLink), (6, pairOf plainLimb),
       (7, pairOf matWithDiffuse), (8, pairOf plainTexture),
       (9, pairOf matWithNormal)] }

/-- An object-object connection. -/
def conOO (f t : Nat) : Connection' :=
  { ctype := .OBJECT_OBJECT, fromId := f, toId := t }

/-- An object-property connection. -/
def conOP (f t : Nat) (p : String) : Connection' :=
  { ctype := .OBJECT_PROPERTY, fromId := f, toId := t, property := strBytes p }

/-- A version-7400 binary scene whose `Objects` element contains one child
`X` with no properties — `parseObjects` rejects it (`Invalid`) because the
id-seeding loop requires a long first property. -/
def badObjectsBytes : List Nat :=
  fbxHeaderBytes 7400 ++
  u32LEBytes 74 ++ u32LEBytes 0 ++ u32LEBytes 0 ++ [7] ++ strBytes "Objects" ++
  u32LEBytes 61 ++ u32LEBytes 0 ++ u32LEBytes 0 ++ [1] ++ strBytes "X" ++
  List.replicate 13 0 ++
  u32LEBytes 0 ++ List.replicate 13 0

/-- The tokenized form of `badObjectsBytes`. -/
def badObjectsRoot : ElementB :=
  .mk [] []
    [.mk (strBytes "Objects") []
      [.mk (strBytes "X") [] []]]

/-! ### Lemmas about the curve evaluator -/

/-- Strict monotonicity of a `Pairwise (· < ·)` list, in `zget` form. -/
lemma zget_strictMono {times : List Int} (h : times.Pairwise (· < ·))
    {j k : Nat} (hjk : j < k) (hk : k < times.length) :
    zget times j < zget times k := by
  have hj : j < times.length := lt_trans hjk hk
  have := List.pairwise_iff_get.mp h ⟨j, hj⟩ ⟨k, hk⟩ hjk
  simpa [zget, List.getD_eq_getElem?_getD, List.getElem?_eq_getElem hj,
    List.getElem?_eq_getElem hk, List.get_eq_getElem] using this

/-- If the linear search first succeeds at index `target`, it returns the
interpolation between keys `target - 1` and `target`. -/
lemma evalLoop_hit (times : List Int) (values : List ℚ) (fbx : Int)
    (target : Nat) :
    ∀ i rem, i ≤ target → target < i + rem →
    (∀ j, i ≤ j → j < target → zget times j < fbx) →
    fbx ≤ zget times target →
    evalLoop times values fbx i rem =
      qget values (target - 1) *
        (1 - ((fbx : ℚ) - (zget times (target - 1) : ℚ)) /
          ((zget times target : ℚ) - (zget times (target - 1) : ℚ))) +
      qget values target *
        (((fbx : ℚ) - (zget times (target - 1) : ℚ)) /
          ((zget times target : ℚ) - (zget times (target - 1) : ℚ))) := by
  intro i rem
  induction rem generalizing i with
  | zero => intro hi hlt; omega
  | succ rem ih =>
    intro hi hlt hbefore hhit
    rw [evalLoop]
    by_cases hcond : fbx ≤ zget times i
    · have hieq : i = target := by
        by_contra hne
        have hilt : i < target := lt_of_le_of_ne hi hne
        exact absurd hcond (not_le.mpr (hbefore i le_rfl hilt))
      subst hieq
      simp [hcond]
    · have hilt : i < target := by
        rcases lt_or_eq_of_le hi with h | h
        · exact h
        · subst h; exact absurd hhit hcond
      simp only [if_neg hcond]
      exact ih (i + 1) hilt (by omega)
        (fun j hj hjlt => hbefore j (by omega) hjlt) hhit

/-- The search loop started at index 1 returns `values[i]` when run on
`fbx = times[i]`, for any valid key index `i`, on a strictly increasing key
list with at least two keys. -/
lemma evalLoop_at_key (c : AnimationCurveImpl)
    (h2 : 2 ≤ c.values.length) (hlen : c.times.length = c.values.length)
    (hsort : c.times.Pairwise (· < ·)) (i : Nat) (hi : i < c.times.length) :
    evalLoop c.times c.values (zget c.times i) 1 (c.values.length - 1) =
      qget c.values i := by
  rcases Nat.eq_zero_or_pos i with hi0 | hipos
  · subst hi0
    rw [evalLoop_hit c.times c.values (zget c.times 0) 1 1 (c.values.length - 1)
      le_rfl (by omega) (fun j hj hjlt => absurd (lt_of_le_of_lt hj hjlt)
        (lt_irrefl 1))
      (le_of_lt (zget_strictMono hsort (by omega) (by omega)))]
    simp
  · rw [evalLoop_hit c.times c.values (zget c.times i) i 1 (c.values.length - 1)
      hipos (by omega)
      (fun j hj hjlt => zget_strictMono hsort hjlt hi) le_rfl]
    have hne : (zget c.times i : ℚ) - (zget c.times (i - 1) : ℚ) ≠ 0 := by
      have := zget_strictMono hsort (show i - 1 < i by omega) hi
      intro hcontra
      have : (zget c.times (i - 1) : ℚ) < (zget c.times i : ℚ) := by
        exact_mod_cast this
      linarith
    rw [div_self hne]
    ring

/-- `EvaluateCore` at a keyframe time returns that key's value. -/
lemma evaluateCore_at_key (c : AnimationCurveImpl)
    (h2 : 2 ≤ c.values.length) (hlen : c.times.length = c.values.length)
    (hsort : c.times.Pairwise (· < ·)) (i : Nat) (hi : i < c.times.length) :
    c.EvaluateCore (zget c.times i) = qget c.values i := by
  have hcount : 0 < c.values.length := by omega
  have h0le : zget c.times 0 ≤ zget c.times i := by
    rcases Nat.eq_zero_or_pos i with h | h
    · subst h; exact le_rfl
    · exact le_of_lt (zget_strictMono hsort h hi)
  have hlast : zget c.times i ≤ zget c.times (c.values.length - 1) := by
    rcases Nat.lt_or_ge i (c.values.length - 1) with h | h
    · exact le_of_lt (zget_strictMono hsort h (by omega))
    · have : i = c.values.length - 1 := by omega
      subst this; exact le_rfl
  rw [AnimationCurveImpl.EvaluateCore]
  simp only [if_pos hcount, if_neg (not_lt.mpr h0le), if_neg (not_lt.mpr hlast)]
  exact evalLoop_at_key c h2 hlen hsort i hi

/-- `EvaluateCore` clamps low queries to the first key. -/
lemma evaluateCore_low (c : AnimationCurveImpl)
    (h2 : 2 ≤ c.values.length) (hlen : c.times.length = c.values.length)
    (hsort : c.times.Pairwise (· < ·)) (t : Int) (ht : t ≤ zget c.times 0) :
    c.EvaluateCore t = qget c.values 0 := by
  have hcount : 0 < c.values.length := by omega
  have h0last : zget c.times 0 ≤ zget c.times (c.values.length - 1) :=
    le_of_lt (zget_strictMono hsort (by omega) (by omega))
  have hkey := evaluateCore_at_key c h2 hlen hsort 0 (by omega)
  rw [AnimationCurveImpl.EvaluateCore] at hkey ⊢
  simp only [if_pos hcount] at hkey ⊢
  rcases lt_or_eq_of_le ht with h | h
  · simp only [if_pos h, if_neg (not_lt.mpr h0last)]
    simpa [if_neg (lt_irrefl (zget c.times 0)), if_neg (not_lt.mpr h0last)]
      using hkey
  · subst h
    simpa using hkey

/-- `EvaluateCore` clamps high queries to the last key. -/
lemma evaluateCore_high (c : AnimationCurveImpl)
    (h2 : 2 ≤ c.values.length) (hlen : c.times.length = c.values.length)
    (hsort : c.times.Pairwise (· < ·)) (t : Int)
    (ht : zget c.times (c.times.length - 1) ≤ t) :
    c.EvaluateCore t = qget c.values (c.values.length - 1) := by
  have hcount : 0 < c.values.length := by omega
  have h0last : zget c.times 0 < zget c.times (c.values.length - 1) :=
    zget_strictMono hsort (by omega) (by omega)
  have hlen' : c.times.length - 1 = c.values.length - 1 := by omega
  rw [hlen'] at ht
  have hkey := evaluateCore_at_key c h2 hlen hsort (c.values.length - 1)
    (by omega)
  rw [AnimationCurveImpl.EvaluateCore] at hkey ⊢
  simp only [if_pos hcount] at hkey ⊢
  have h0t : ¬ t < zget c.times 0 := not_lt.mpr (le_trans (le_of_lt h0last) ht)
  rcases lt_or_eq_of_le ht with h | h
  · simp only [if_neg h0t, if_pos h]
    simpa [if_neg (not_lt.mpr (le_of_lt h0last)), if_neg (lt_irrefl _)]
      using hkey
  · subst h
    simpa using hkey

/-- On a cache miss the returned value is the recomputed one. -/
lemma evaluate_fst_of_ne (c : AnimationCurveImpl) (t : Int)
    (h : c.mLastEvalTime ≠ t) : (c.Evaluate t).1 = c.EvaluateCore t := by
  rw [AnimationCurveImpl.Evaluate, if_neg h]

/-- A fresh curve with no keys evaluates to `0` at every time (on a cache hit
the initial `mLastEvalValue = 0` is returned; otherwise the `count > 0` test
fails). -/
lemma evaluate_fresh_empty (t : Int) :
    ((AnimationCurveImpl.fresh [] [] []).Evaluate t).1 = 0 := by
  by_cases h : OFBTimeMinusInfinity = t <;>
    simp [AnimationCurveImpl.Evaluate, AnimationCurveImpl.fresh,
      AnimationCurveImpl.EvaluateCore, h]

/-- A fresh single-key curve also evaluates to `0` at every time: the search
loop `for (i = 1; i < count; ++i)` never executes for `count = 1`, so
`result` keeps its initial `0.0f`. -/
lemma evaluate_fresh_single (t a : Int) (v : ℚ) :
    ((AnimationCurveImpl.fresh [a] [v] []).Evaluate t).1 = 0 := by
  by_cases h : OFBTimeMinusInfinity = t <;>
    simp [AnimationCurveImpl.Evaluate, AnimationCurveImpl.fresh,
      AnimationCurveImpl.EvaluateCore, evalLoop, h]

/-- **C1.** The claim states that `Evaluate` memoizes `(t, result)` and that a
second call with the same `t` returns the same value.  The code stores only
the time: on the curve `times = [0, 46186158000]`, `values = [0, 10]`, the
first call `Evaluate(46186158000)` returns `10`, the immediately repeated
call returns the stale initial cache value `0`, and the state after the first
call indeed still holds `mLastEvalValue = 0` — `Evaluate` never writes the
computed result into the cache slot. -/
theorem curve_evaluate_cache_returns_stale_value :
    (((AnimationCurveImpl.fresh [0, 46186158000] [0, 10] []).Evaluate
        46186158000).1 = 10) ∧
    ((((AnimationCurveImpl.fresh [0, 46186158000] [0, 10] []).Evaluate
        46186158000).2.Evaluate 46186158000).1 = 0) ∧
    (((AnimationCurveImpl.fresh [0, 46186158000] [0, 10] []).Evaluate
        46186158000).2.mLastEvalValue = 0) := by
  refine ⟨?_, ?_, ?_⟩ <;>
    norm_num [AnimationCurveImpl.Evaluate, AnimationCurveImpl.EvaluateCore,
      evalLoop, AnimationCurveImpl.fresh, zget, qget, OFBTimeMinusInfinity]

/-- **C3 (counterexample).** A curve with the non-empty key list
`times = [5]`, `values = [7]` evaluates to `0` at its own keyframe time `5`,
not to `values.first = 7` as the claim requires. -/
theorem curve_single_key_evaluates_to_zero :
    ((AnimationCurveImpl.fresh [5] [7] []).Evaluate 5).1 = 0 ∧ (0 : ℚ) ≠ 7 := by
  constructor
  · exact evaluate_fresh_single 5 5 7
  · norm_num

/-- **C3 (amended).** For a curve with at least two keys and strictly
increasing key times, an evaluation that is not a cache hit clamps the query
to `[times.first, times.last]` and interpolates linearly: below the first key
it returns `values.first`, above the last key `values.last`, and at key `i`
exactly `values[i]`.  The E6 instances hold exactly (`5`, `0`, `10`).  A curve
with an empty key list returns `0` — and so does a curve with exactly one
key, which is what forces the two-key restriction. -/
theorem curve_evaluate_clamps_and_interpolates (c : AnimationCurveImpl)
    (h2 : 2 ≤ c.values.length) (hlen : c.times.length = c.values.length)
    (hsort : c.times.Pairwise (· < ·)) :
    (∀ t : Int, c.mLastEvalTime ≠ t → t ≤ zget c.times 0 →
      (c.Evaluate t).1 = qget c.values 0) ∧
    (∀ t : Int, c.mLastEvalTime ≠ t → zget c.times (c.times.length - 1) ≤ t →
      (c.Evaluate t).1 = qget c.values (c.values.length - 1)) ∧
    (∀ i : Nat, i < c.times.length → c.mLastEvalTime ≠ zget c.times i →
      (c.Evaluate (zget c.times i)).1 = qget c.values i) ∧
    ((AnimationCurveImpl.fresh [0, 46186158000] [0, 10] []).Evaluate
      23093079000).1 = 5 ∧
    ((AnimationCurveImpl.fresh [0, 46186158000] [0, 10] []).Evaluate
      (-1)).1 = 0 ∧
    ((AnimationCurveImpl.fresh [0, 46186158000] [0, 10] []).Evaluate
      (10 ^ 12)).1 = 10 ∧
    (∀ t : Int, ((AnimationCurveImpl.fresh [] [] []).Evaluate t).1 = 0) ∧
    (∀ (t a : Int) (v : ℚ),
      ((AnimationCurveImpl.fresh [a] [v] []).Evaluate t).1 = 0) := by
  refine ⟨?_, ?_, ?_, ?_, ?_, ?_, evaluate_fresh_empty, evaluate_fresh_single⟩
  · intro t hfresh ht
    rw [evaluate_fst_of_ne c t hfresh]
    exact evaluateCore_low c h2 hlen hsort t ht
  · intro t hfresh ht
    rw [evaluate_fst_of_ne c t hfresh]
    exact evaluateCore_high c h2 hlen hsort t ht
  · intro i hi hfresh
    rw [evaluate_fst_of_ne c _ hfresh]
    exact evaluateCore_at_key c h2 hlen hsort i hi
  · norm_num [AnimationCurveImpl.Evaluate, AnimationCurveImpl.EvaluateCore,
      evalLoop, AnimationCurveImpl.fresh, zget, qget, OFBTimeMinusInfinity]
  · norm_num [AnimationCurveImpl.Evaluate, AnimationCurveImpl.EvaluateCore,
      evalLoop, AnimationCurveImpl.fresh, zget, qget, OFBTimeMinusInfinity]
  · norm_num [AnimationCurveImpl.Evaluate, AnimationCurveImpl.EvaluateCore,
      evalLoop, AnimationCurveImpl.fresh, zget, qget, OFBTimeMinusInfinity]

/-- Witness for the amended C3: the boundary clause applied to the concrete
E6 curve at `t = -5`. -/
theorem curve_evaluate_clamps_and_interpolates_witness :
    ((AnimationCurveImpl.fresh [0, 46186158000] [0, 10] []).Evaluate (-5)).1 =
      qget [0, 10] 0 :=
  (curve_evaluate_clamps_and_interpolates
    (AnimationCurveImpl.fresh [0, 46186158000] [0, 10] [])
    (by decide) (by decide) (by decide)).1 (-5) (by decide) (by decide)

/-! ### Lemmas about the triangulator -/

lemma encodePoly_length (p : List Int) (_h : 1 ≤ p.length) :
    (encodePoly p).length = p.length := by
  simp [encodePoly]
  omega

lemma zget_encodePoly_lt (p : List Int) (i : Nat) (h : i < p.length - 1) :
    zget (encodePoly p) i = zget p i := by
  simp only [zget, encodePoly, List.getD_eq_getElem?_getD]
  rw [List.getElem?_append_left (by simpa using h)]
  rw [List.getElem?_take_of_lt h]

lemma zget_encodePoly_last (p : List Int) (_h : 1 ≤ p.length) :
    zget (encodePoly p) (p.length - 1) = -(zget p (p.length - 1)) - 1 := by
  have hlen : (p.take (p.length - 1)).length = p.length - 1 := by
    simp [List.length_take]
  simp only [zget, encodePoly, List.getD_eq_getElem?_getD]
  rw [List.getElem?_append_right (le_of_eq hlen)]
  rw [hlen, Nat.sub_self]
  simp [zget, List.getD_eq_getElem?_getD]

lemma zget_nonneg {p : List Int} (hnn : ∀ x ∈ p, 0 ≤ x) {i : Nat}
    (hi : i < p.length) : 0 ≤ zget p i := by
  have : p.getD i 0 ∈ p := by
    rw [List.getD_eq_getElem?_getD, List.getElem?_eq_getElem hi]
    exact List.getElem_mem hi
  exact hnn _ this

/-- Inside a single polygon the loop, entered at position `j = ipi ≥ 3`,
emits one fan triangle per remaining position. -/
lemma triLoop_poly (p : List Int) (hk : 3 ≤ p.length)
    (hnn : ∀ x ∈ p, 0 ≤ x) :
    ∀ rem j, 3 ≤ j → j + rem = p.length →
    triLoop (encodePoly p) j j rem =
      ((List.range' j rem).flatMap
        (fun i => [zget p 0, zget p (i - 1), zget p i]),
       (List.range' j rem).flatMap (fun i => [0, i - 1, i])) := by
  intro rem
  induction rem with
  | zero => intro j h3 hsum; simp [triLoop]
  | succ rem ih =>
    intro j h3 hsum
    have hp0 : zget (encodePoly p) 0 = zget p 0 :=
      zget_encodePoly_lt p 0 (by omega)
    have hpj1 : zget (encodePoly p) (j - 1) = zget p (j - 1) :=
      zget_encodePoly_lt p (j - 1) (by omega)
    have hjj : j - j = 0 := Nat.sub_self j
    rcases Nat.lt_or_ge j (p.length - 1) with hcase | hcase
    · -- interior index of the polygon: the raw value is non-negative
      have hv : zget (encodePoly p) j = zget p j := zget_encodePoly_lt p j hcase
      have hvnn : 0 ≤ zget p j := zget_nonneg hnn (by omega)
      rw [triLoop]
      simp only [hv, if_neg (not_lt.mpr hvnn), if_neg (by omega : ¬ j ≤ 2)]
      rw [ih (j + 1) (by omega) (by omega)]
      rw [List.range'_succ]
      simp [hjj, hp0, hpj1]
    · -- last index: the raw value is the complemented one
      have hjlast : j = p.length - 1 := by omega
      have hrem0 : rem = 0 := by omega
      subst hrem0
      have hv : zget (encodePoly p) j = -(zget p j) - 1 := by
        rw [hjlast]; exact zget_encodePoly_last p (by omega)
      have hvnn : 0 ≤ zget p j := zget_nonneg hnn (by omega)
      rw [triLoop]
      simp only [hv, if_pos (by omega : -(zget p j) - 1 < 0),
        if_neg (by omega : ¬ j ≤ 2)]
      rw [triLoop]
      rw [List.range'_succ]
      simp only [List.range'_zero, List.flatMap_cons, List.flatMap_nil]
      simp [hjj, hp0, hpj1]

/-- Triangulating a single encoded polygon of `k ≥ 3` non-negative indices
yields exactly the fan. -/
lemma triangulate_encodePoly (p : List Int) (hk : 3 ≤ p.length)
    (hnn : ∀ x ∈ p, 0 ≤ x) :
    triangulate (encodePoly p) = (fanIndices p, fanPositions p.length) := by
  unfold triangulate
  rw [encodePoly_length p (by omega)]
  obtain ⟨rem, hrem⟩ : ∃ rem, p.length = rem + 3 := ⟨p.length - 3, by omega⟩
  have hp0 : zget (encodePoly p) 0 = zget p 0 :=
    zget_encodePoly_lt p 0 (by omega)
  have hp1 : zget (encodePoly p) 1 = zget p 1 :=
    zget_encodePoly_lt p 1 (by omega)
  have h0nn : 0 ≤ zget p 0 := zget_nonneg hnn (by omega)
  have h1nn : 0 ≤ zget p 1 := zget_nonneg hnn (by omega)
  rw [hrem, show rem + 3 = (rem + 2) + 1 from rfl, triLoop]
  simp only [hp0, if_neg (not_lt.mpr h0nn), if_pos (by omega : (0:Nat) ≤ 2)]
  rw [show rem + 2 = (rem + 1) + 1 from rfl, triLoop]
  simp only [hp1, if_neg (not_lt.mpr h1nn), if_pos (by omega : (1:Nat) ≤ 2)]
  rcases Nat.eq_zero_or_pos rem with hrem0 | hrempos
  · -- triangle: the third position carries the complemented value
    subst hrem0
    have hp2 : zget (encodePoly p) 2 = -(zget p 2) - 1 := by
      have := zget_encodePoly_last p (by omega)
      rwa [show p.length - 1 = 2 by omega] at this
    have h2nn : 0 ≤ zget p 2 := zget_nonneg hnn (by omega)
    rw [triLoop]
    simp only [hp2, if_pos (by omega : -(zget p 2) - 1 < 0),
      if_pos (by omega : (2:Nat) ≤ 2)]
    rw [triLoop]
    simp [fanIndices, fanPositions, hrem]
  · -- quad or larger: the third position is interior
    have hp2 : zget (encodePoly p) 2 = zget p 2 :=
      zget_encodePoly_lt p 2 (by omega)
    have h2nn : 0 ≤ zget p 2 := zget_nonneg hnn (by omega)
    rw [triLoop]
    simp only [hp2, if_neg (not_lt.mpr h2nn), if_pos (le_refl 2)]
    rw [triLoop_poly p hk hnn rem 3 le_rfl (by omega)]
    simp [fanIndices, fanPositions, hrem]

/-- **C5.** Triangulation of a `PolygonVertexIndex` polygon is a fan: a
polygon of `k ≥ 3` non-negative indices (the last one bitwise-complemented
in the encoding) produces the `k - 2` triangles `(v0, v_{i-1}, v_i)`,
`i = 2..k-1`, both in the emitted index values and in the position map; in
particular the quad `[0, 1, 2, ~3]` produces `[0,1,2, 0,2,3]` and the single
triangle `[0, 1, ~2]` produces the identity `[0,1,2]`. -/
theorem triangulate_fan (p : List Int) (hk : 3 ≤ p.length)
    (hnn : ∀ x ∈ p, 0 ≤ x) :
    triangulate (encodePoly p) = (fanIndices p, fanPositions p.length) ∧
    triangulate [0, 1, 2, -4] = ([0, 1, 2, 0, 2, 3], [0, 1, 2, 0, 2, 3]) ∧
    triangulate [0, 1, -3] = ([0, 1, 2], [0, 1, 2]) :=
  ⟨triangulate_encodePoly p hk hnn, by decide, by decide⟩

/-- Witness for C5 at the concrete quad `[5, 6, 7, 8]`. -/
theorem triangulate_fan_witness :
    triangulate (encodePoly [5, 6, 7, 8]) =
      (fanIndices [5, 6, 7, 8], fanPositions ([5, 6, 7, 8] : List Int).length) :=
  (triangulate_fan [5, 6, 7, 8] (by decide) (by decide)).1

/-! ### Cluster expansion (C6) -/

/-- **C6.** Cluster post-processing expands each `(old_idx, w)` pair by
walking `to_new_vertices[old_idx]`, emitting one `(new_idx, w)` pair per
chain slot and silently skipping unmapped old indices (head `index = -1`);
concretely, with `to_new_vertices[5]` chaining to `{12, 27}`,
`Indexes = [5]` and `Weights = [0.25]` produce `indices = [12, 27]` and
`weights = [0.25, 0.25]`. -/
theorem cluster_expand_per_slot (toNew : List NewVertex)
    (pairs : List (Int × ℚ)) :
    clusterExpand toNew pairs =
      (pairs.flatMap (fun pr =>
        if (ngget toNew pr.1).index = -1 then []
        else chainIndices (ngget toNew pr.1)),
       pairs.flatMap (fun pr =>
        if (ngget toNew pr.1).index = -1 then []
        else (chainIndices (ngget toNew pr.1)).map (fun _ => pr.2))) ∧
    clusterPostprocessCore
      (List.replicate 5 NewVertex.dflt ++ [NewVertex.mk 12 (some (.mk 27 none))])
      [5] [(1/4 : ℚ)] = some ([12, 27], [1/4, 1/4]) := by
  constructor
  · induction pairs with
    | nil => simp [clusterExpand]
    | cons hd tl ih =>
      obtain ⟨i, w⟩ := hd
      rw [clusterExpand, ih]
      by_cases h : (ngget toNew i).index = -1 <;> simp [h]
  · norm_num [clusterPostprocessCore, clusterExpand, ngget, NewVertex.dflt,
      List.replicate, chainIndices, NewVertex.index,
      show Int.toNat (5 : Int) = 5 from rfl,
      List.getElem_cons_succ, List.getElem_cons_zero]

/-- Witness for C6: the per-slot expansion at a mapped and an unmapped
index. -/
theorem cluster_expand_per_slot_witness :
    clusterExpand [NewVertex.mk 3 none] [((0 : Int), (1/2 : ℚ)), (7, 1)] =
      ([((0 : Int), (1/2 : ℚ)), (7, 1)].flatMap (fun pr =>
        if (ngget [NewVertex.mk 3 none] pr.1).index = -1 then []
        else chainIndices (ngget [NewVertex.mk 3 none] pr.1)),
       [((0 : Int), (1/2 : ℚ)), (7, 1)].flatMap (fun pr =>
        if (ngget [NewVertex.mk 3 none] pr.1).index = -1 then []
        else (chainIndices (ngget [NewVertex.mk 3 none] pr.1)).map
          (fun _ => pr.2))) :=
  (cluster_expand_per_slot [NewVertex.mk 3 none]
    [((0 : Int), (1/2 : ℚ)), (7, 1)]).1

/-! ### Splat / remap zero-fill (C8) -/

/-- **C8.** During per-vertex attribute splatting and remapping, every
out-of-range attribute index writes a zero-valued entry instead of failing:
the output arrays always have their full length (one entry per reference
index for `ByPolygonVertex`, per original index for `ByVertex`, per map
entry for `remap`) and every position whose index is `≥` the data length
holds the zero value.  `splat` and `remap` have no failure path. -/
theorem splat_remap_zero_fill {α : Type} [Zero α] (data out : List α)
    (indices original_indices m : List Int) (i : Nat) :
    (indices ≠ [] →
      (splat VertexDataMapping.byPolygonVertex data indices
        original_indices).length = indices.length) ∧
    (indices ≠ [] → i < indices.length →
      (data.length : Int) ≤ zget indices i →
      agetD (splat VertexDataMapping.byPolygonVertex data indices
        original_indices) i = 0) ∧
    ((splat VertexDataMapping.byVertex data indices original_indices).length
      = original_indices.length) ∧
    (i < original_indices.length →
      (data.length : Int) ≤
        (if zget original_indices i < 0 then -(zget original_indices i) - 1
         else zget original_indices i) →
      agetD (splat VertexDataMapping.byVertex data indices original_indices) i
        = 0) ∧
    (out ≠ [] → (remap out m).length = m.length) ∧
    (out ≠ [] → i < m.length → (out.length : Int) ≤ zget m i →
      agetD (remap out m) i = 0) := by
  refine ⟨?_, ?_, ?_, ?_, ?_, ?_⟩
  · intro hne
    simp [splat, hne]
  · intro hne hi hoob
    have hemp : ¬ (indices.isEmpty = true) := by simp [hne]
    simp only [splat, agetD, if_neg hemp]
    rw [List.getD_eq_getElem?_getD, List.getElem?_map]
    simp [List.getElem?_range hi, not_lt.mpr hoob]
  · simp [splat]
  · intro hi hoob
    simp only [splat, agetD]
    rw [List.getD_eq_getElem?_getD, List.getElem?_map]
    simp only [List.getElem?_range hi, Option.map_some', Option.getD_some]
    rw [if_neg (not_lt.mpr hoob)]
  · intro hne
    simp [remap, hne]
  · intro hne hi hoob
    have hemp : ¬ (out.isEmpty = true) := by simp [hne]
    simp only [remap, agetD, if_neg hemp]
    rw [List.getD_eq_getElem?_getD, List.getElem?_map]
    have hm : m[i]? = some (zget m i) := by
      rw [List.getElem?_eq_getElem hi]
      simp [zget, List.getD_eq_getElem?_getD, List.getElem?_eq_getElem hi]
    rw [hm]
    simp [not_lt.mpr hoob]

/-- Witness for C8: a concrete out-of-range reference index (`7` against a
2-element data array) is zero-filled at its position. -/
theorem splat_remap_zero_fill_witness :
    agetD (splat VertexDataMapping.byPolygonVertex ([4, 5] : List Int)
      [0, 7, 1] []) 1 = 0 :=
  (splat_remap_zero_fill ([4, 5] : List Int) [] [0, 7, 1] [] [] 1).2.1
    (by decide) (by decide) (by decide)

/-! ### Local transform (C4) -/

/-- With `RotationActive = false` and all pivots and offsets zero,
`evalLocal` takes the cheap path, and the rotation matrix is composed with
`EULER_XYZ` — the node's `RotationOrder` is never read in this case. -/
lemma evalLocal_cheap (st : ModelState) (hra : st.RotationActive = false)
    (h1 : VectorIsZero st.RotationPivot) (h2 : VectorIsZero st.ScalingPivot)
    (h3 : VectorIsZero st.RotationOffset) (h4 : VectorIsZero st.ScalingOffset)
    (t : OFBVector3) (r : RotVector) (s : OFBVector3) :
    evalLocal st t r s =
      mulM (mulM (setTranslation t makeIdentity)
        (getRotationMatrix r .eEULER_XYZ)) (scaleMatrix s) := by
  simp [evalLocal, hra, h1, h2, h3, h4, RotIsZero, RotVector.zero,
    RotAngle.zero]

/-- **C4 (counterexample).** A model with `RotationActive == false`, all
pivots and offsets zero and `RotationOrder == EULER_ZYX`, evaluated at the
rotation `(90°, 0°, 90°)` with zero translation and unit scale, does *not*
return `T · R_{rot_order}(r) · S`: the code ignores the node's
`RotationOrder` when `RotationActive` is false and uses `EULER_XYZ`,
which differs from `EULER_ZYX` at this rotation. -/
theorem evalLocal_ignores_rotation_order_when_inactive :
    evalLocal { RotationOrder := .eEULER_ZYX } ⟨0,0,0⟩ rot90_0_90 ⟨1,1,1⟩ ≠
      mulM (mulM (setTranslation ⟨0,0,0⟩ makeIdentity)
        (getRotationMatrix rot90_0_90 .eEULER_ZYX)) (scaleMatrix ⟨1,1,1⟩) := by
  rw [evalLocal_cheap { RotationOrder := .eEULER_ZYX } rfl
    ⟨rfl, rfl, rfl⟩ ⟨rfl, rfl, rfl⟩ ⟨rfl, rfl, rfl⟩ ⟨rfl, rfl, rfl⟩]
  intro h
  have hm2 := congrArg OFBMatrix.m2 h
  norm_num [getRotationMatrix, rotXM, rotYM, rotZM, mulM,
    makeIdentity, setTranslation, scaleMatrix, rot90_0_90] at hm2

/-- **C4 (amended).** For every model with `RotationActive == false`: if all
pivots and offsets are zero, `evalLocal(t, r, s)` is the cheap-path product
`T(t) · R_XYZ(r) · S(s)` — with the rotation composed in `EULER_XYZ` order
regardless of the node's `RotationOrder`, which is honoured only when
`RotationActive` is true; if some pivot or offset is nonzero, the ten-term
pivot product is used, with the pre/post rotations pinned to zero. -/
theorem evalLocal_cheap_path_xyz (st : ModelState) (t : OFBVector3)
    (r : RotVector) (s : OFBVector3) (hra : st.RotationActive = false) :
    (VectorIsZero st.RotationPivot → VectorIsZero st.ScalingPivot →
      VectorIsZero st.RotationOffset → VectorIsZero st.ScalingOffset →
      evalLocal st t r s =
        mulM (mulM (setTranslation t makeIdentity)
          (getRotationMatrix r .eEULER_XYZ)) (scaleMatrix s)) ∧
    (¬ (VectorIsZero st.RotationPivot ∧ VectorIsZero st.ScalingPivot ∧
        VectorIsZero st.RotationOffset ∧ VectorIsZero st.ScalingOffset) →
      evalLocal st t r s =
        mulM (mulM (mulM (mulM (mulM (mulM (mulM (mulM (mulM (mulM
          (setTranslation t makeIdentity)
          (setTranslation st.RotationOffset makeIdentity))
          (setTranslation st.RotationPivot makeIdentity))
          (getRotationMatrix .zero .eEULER_XYZ))
          (getRotationMatrix r .eEULER_XYZ))
          (getRotationMatrix RotVector.zero.neg .eEULER_ZYX))
          (setTranslation (negV3 st.RotationPivot) makeIdentity))
          (setTranslation st.ScalingOffset makeIdentity))
          (setTranslation st.ScalingPivot makeIdentity))
          (scaleMatrix s))
          (setTranslation (negV3 st.ScalingPivot) makeIdentity)) := by
  constructor
  · intro h1 h2 h3 h4
    exact evalLocal_cheap st hra h1 h2 h3 h4 t r s
  · intro hnz
    rw [evalLocal]
    simp only [hra, Bool.false_eq_true, if_false]
    rw [if_neg]
    intro hc
    exact hnz ⟨hc.1, hc.2.1, hc.2.2.2.2.1, hc.2.2.2.2.2⟩

/-- Witness for the amended C4: the cheap path at a concrete model whose
`RotationOrder` is `EULER_ZYX` but whose rotation is composed `XYZ`. -/
theorem evalLocal_cheap_path_xyz_witness :
    evalLocal { RotationOrder := .eEULER_ZYX } ⟨1,2,3⟩ rot90_0_90 ⟨1,1,1⟩ =
      mulM (mulM (setTranslation ⟨1,2,3⟩ makeIdentity)
        (getRotationMatrix rot90_0_90 .eEULER_XYZ)) (scaleMatrix ⟨1,1,1⟩) :=
  (evalLocal_cheap_path_xyz { RotationOrder := .eEULER_ZYX } ⟨1,2,3⟩
    rot90_0_90 ⟨1,1,1⟩ rfl).1 ⟨rfl, rfl, rfl⟩ ⟨rfl, rfl, rfl⟩
    ⟨rfl, rfl, rfl⟩ ⟨rfl, rfl, rfl⟩

/-! ### Loading the empty scene (C2) -/

/-- Claim C2 counterexample: loading the valid empty binary scene E1
succeeds, but the resulting scene has NO root object (`getRoot()` is null:
without an `Objects` element `parseObjects` returns before seeding the
synthetic root) and `getAllObjectCount()` is `0`, not `1` (the root is
skipped by the factory loop and never appended to `m_all_objects`). -/
theorem load_empty_scene_no_root :
    (loadM inflNone e1Bytes).isSome = true ∧
    (loadM inflNone e1Bytes).map
        (fun sc => (sc.root?.isSome, sc.allObjects.length)) =
      some (false, 0) :=
  ⟨rfl, rfl⟩

/-- Claim C2 (amended): for every inflater, loading E1 succeeds with no
meshes, a null root and an empty `m_all_objects`; the synthetic root named
`RootNode` (id 0, `is_node`) is created only when an `Objects` element is
present, and even then it is excluded from `m_all_objects`. -/
theorem load_empty_scene (infl : Inflater) :
    (loadM infl e1Bytes).map
        (fun sc => (sc.meshes, sc.root?.isSome, sc.allObjects)) =
      some ([], false, []) ∧
    (parseObjectsM infl rootWithEmptyObjects
        { rootElement := rootWithEmptyObjects }).toOption.map
        (fun sc => (sc.root?.map (fun o => (o.name, o.id, o.isNode)),
          sc.allObjects)) =
      some (some (strBytes "RootNode", 0, true), []) :=
  ⟨rfl, rfl⟩

/-- Witness for the amended C2, at the failing inflater. -/
theorem load_empty_scene_witness :
    (loadM inflNone e1Bytes).map
        (fun sc => (sc.meshes, sc.root?.isSome, sc.allObjects)) =
      some ([], false, []) :=
  (load_empty_scene inflNone).1

/-! ### The frame-rate table (C10) -/

/-- Claim C10: `getFramerateFromTimeMode` realises the fixed table, every
time mode outside `0..14` maps to `-1`, a scene starts with frame rate
`-1`, a file without `GlobalSettings` leaves it untouched, and a concrete
`TimeMode` = 11 file yields 24 fps. -/
theorem framerate_table :
    (getFramerateFromTimeMode 0 = 1 ∧
      getFramerateFromTimeMode 1 = 120 ∧
      getFramerateFromTimeMode 2 = 100 ∧
      getFramerateFromTimeMode 3 = 60 ∧
      getFramerateFromTimeMode 4 = 50 ∧
      getFramerateFromTimeMode 5 = 48 ∧
      getFramerateFromTimeMode 6 = 30 ∧
      getFramerateFromTimeMode 7 = 30 ∧
      getFramerateFromTimeMode 8 = (29.9700262 : ℚ) ∧
      getFramerateFromTimeMode 9 = (29.9700262 : ℚ) ∧
      getFramerateFromTimeMode 10 = 25 ∧
      getFramerateFromTimeMode 11 = 24 ∧
      getFramerateFromTimeMode 12 = 1000 ∧
      getFramerateFromTimeMode 13 = (23.976 : ℚ) ∧
      getFramerateFromTimeMode 14 = -2) ∧
    (∀ tm : Int, tm < 0 ∨ 14 < tm → getFramerateFromTimeMode tm = -1) ∧
    ({} : SceneS).sceneFrameRate = -1 ∧
    (∀ root sc, findChildE root (strBytes "GlobalSettings") = none →
      parseGlobalSettingsM root sc = sc) ∧
    (parseGlobalSettingsM globalSettingsRoot {}).sceneFrameRate = 24 := by
  refine ⟨by norm_num [getFramerateFromTimeMode], ?_, rfl, ?_, rfl⟩
  · intro tm htm
    unfold getFramerateFromTimeMode
    repeat rw [if_neg (by omega)]
  · intro root sc h
    unfold parseGlobalSettingsM
    rw [show root.children.find? (fun e => e.id = strBytes "GlobalSettings")
      = none from h]

/-- Witness for C10: the out-of-table and missing-settings hypotheses at
concrete inputs. -/
theorem framerate_table_witness :
    ((15 : Int) < 0 ∨ 14 < (15 : Int)) ∧
    getFramerateFromTimeMode 15 = -1 ∧
    findChildE ElementB.empty (strBytes "GlobalSettings") = none ∧
    parseGlobalSettingsM ElementB.empty {} = {} :=
  ⟨Or.inr (by decide), framerate_table.2.1 15 (Or.inr (by decide)), rfl,
    framerate_table.2.2.2.1 ElementB.empty {} rfl⟩

/-! ### Duplicate bindings are fatal (C9) -/

/-- Claim C9: each duplicate binding where a single binding is required — a
second geometry on a mesh, a second node attribute, a second link bone on a
cluster, a second same-type texture (diffuse or normal map) on a
material — makes the connection resolver fail with its human-readable
message; a failing connection aborts
the resolver loop, a failing `parseObjects` makes `load` return null (the
partial scene is dropped). -/
theorem connection_duplicate_binding_fatal :
    (∀ sc con parent child,
      lookupObj sc con.toId = some parent →
      lookupObj sc con.fromId = some child →
      parent.ty = .MESH → child.ty = .GEOMETRY →
      parent.meshGeometry.isSome = true →
      applyConnStage3 sc con = .error "Invalid mesh") ∧
    (∀ sc con parent child,
      lookupObj sc con.fromId = some child →
      lookupObj sc con.toId = some parent →
      child.ty = .NODE_ATTRIBUTE → parent.nodeAttr.isSome = true →
      applyConnStage2 sc con = .error "Invalid node attribute") ∧
    (∀ sc con parent child,
      lookupObj sc con.toId = some parent →
      lookupObj sc con.fromId = some child →
      parent.ty = .CLUSTER →
      (child.ty = .LIMB_NODE ∨ child.ty = .MESH ∨ child.ty = .NULL_NODE) →
      parent.clusterLink.isSome = true →
      applyConnStage3 sc con = .error "Invalid cluster") ∧
    (∀ sc con parent child,
      lookupObj sc con.toId = some parent →
      lookupObj sc con.fromId = some child →
      parent.ty = .MATERIAL → child.ty = .TEXTURE →
      con.property = strBytes "DiffuseColor" →
      parent.texDiffuse.isSome = true →
      applyConnStage3 sc con = .error "Invalid material") ∧
    (∀ sc con parent child,
      lookupObj sc con.toId = some parent →
      lookupObj sc con.fromId = some child →
      parent.ty = .MATERIAL → child.ty = .TEXTURE →
      con.property = strBytes "NormalMap" →
      parent.texNormal.isSome = true →
      applyConnStage3 sc con = .error "Invalid material") ∧
    (∀ sc con rest e, applyConnectionM sc con = .error e →
      resolveConnectionsM sc (con :: rest) = .error e) ∧
    (∀ (infl : Inflater) data root sc1 sc2 e,
      tokenizeM data = some root →
      parseConnectionsM root { rootElement := root } = .ok sc1 →
      parseTakesM sc1 = .ok sc2 →
      parseObjectsM infl root sc2 = .error e →
      loadM infl data = none) := by
  refine ⟨?_, ?_, ?_, ?_, ?_, ?_, ?_⟩
  · intro sc con parent child h1 h2 h3 h4 h5
    simp only [applyConnStage3, h1, h2, h3, h4, h5, if_true]
  · intro sc con parent child h1 h2 h3 h4
    simp only [applyConnStage2, h1, h2, h3, h4, if_true]
  · intro sc con parent child h1 h2 h3 h4 h5
    have hc : (child.ty = ObjType.LIMB_NODE ∨ child.ty = ObjType.MESH ∨
        child.ty = ObjType.NULL_NODE) = True := eq_true h4
    simp only [applyConnStage3, h1, h2, h3, h5, hc, if_true]
  · intro sc con parent child h1 h2 h3 h4 h5 h6
    simp only [applyConnStage3, h1, h2, h3, h4, h5, h6, if_true]
    rw [if_neg (by decide)]
  · intro sc con parent child h1 h2 h3 h4 h5 h6
    simp only [applyConnStage3, h1, h2, h3, h4, h5, h6, eq_self_iff_true,
      if_true]
  · intro sc con rest e h
    simp only [resolveConnectionsM, h]
  · intro infl data root sc1 sc2 e h1 h2 h3 h4
    simp only [loadM, h1, h2, h3, h4]

/-- Witness for C9: every duplicate-binding case on the concrete scene
`dupScene`, the resolver abort, and a full `load` returning null on the
concrete bytes whose `Objects` child is invalid. -/
theorem connection_duplicate_binding_fatal_witness :
    applyConnStage3 dupScene (conOO 2 1) = .error "Invalid mesh" ∧
    applyConnStage2 dupScene (conOO 4 3) = .error "Invalid node attribute" ∧
    applyConnStage3 dupScene (conOO 6 5) = .error "Invalid cluster" ∧
    applyConnStage3 dupScene (conOP 8 7 "DiffuseColor") =
      .error "Invalid material" ∧
    applyConnStage3 dupScene (conOP 8 9 "NormalMap") =
      .error "Invalid material" ∧
    resolveConnectionsM dupScene [conOO 2 1] = .error "Invalid mesh" ∧
    loadM inflNone badObjectsBytes = none :=
  ⟨connection_duplicate_binding_fatal.1 dupScene (conOO 2 1)
      meshWithGeometry plainGeometry rfl rfl rfl rfl rfl,
    connection_duplicate_binding_fatal.2.1 dupScene (conOO 4 3)
      limbWithAttr plainAttr rfl rfl rfl rfl,
    connection_duplicate_binding_fatal.2.2.1 dupScene (conOO 6 5)
      clusterWithLink plainLimb rfl rfl rfl (Or.inl rfl) rfl,
    connection_duplicate_binding_fatal.2.2.2.1 dupScene
      (conOP 8 7 "DiffuseColor") matWithDiffuse plainTexture
      rfl rfl rfl rfl rfl rfl,
    connection_duplicate_binding_fatal.2.2.2.2.1 dupScene
      (conOP 8 9 "NormalMap") matWithNormal plainTexture
      rfl rfl rfl rfl rfl rfl,
    connection_duplicate_binding_fatal.2.2.2.2.2.1 dupScene (conOO 2 1) []
      "Invalid mesh" rfl,
    connection_duplicate_binding_fatal.2.2.2.2.2.2 inflNone badObjectsBytes
      badObjectsRoot { rootElement := badObjectsRoot }
      { rootElement := badObjectsRoot } "Invalid" rfl rfl rfl rfl⟩

/-! ### Animation-curve parsing invariants (C7) -/

/-- A successful `parseArrayRaw` fills the destination buffer completely:
the raw or inflated prefix is padded with zeros to exactly `max_size`
bytes. -/
lemma parseArrayRawBytes_length {infl : Inflater} {p : PropertyB}
    {maxSize : Nat} {bs : List Nat}
    (h : parseArrayRawBytes infl p maxSize = some bs) :
    bs.length = maxSize := by
  simp only [parseArrayRawBytes] at h
  split at h
  · exact Option.noConfusion h
  · split at h
    · exact Option.noConfusion h
    · split at h
      · exact Option.noConfusion h
      · split at h
        · split at h
          · exact Option.noConfusion h
          · split at h
            · exact Option.noConfusion h
            · injection h with h
              subst h
              simp only [List.length_append, sliceBytes, List.length_take,
                List.length_drop, List.length_replicate]
              omega
        · split at h
          · split at h
            · exact Option.noConfusion h
            · split at h
              · exact Option.noConfusion h
              · injection h with h
                subst h
                simp only [List.length_append, List.length_take,
                  List.length_replicate]
                omega
          · exact Option.noConfusion h

/-- A buffer of `4 * k` bytes groups into `k` four-byte words. -/
lemma groupBytesF_length_four :
    ∀ k fuel bs, bs.length = 4 * k → bs.length ≤ fuel →
      (groupBytesF 4 fuel bs).length = k := by
  intro k
  induction k with
  | zero =>
    intro fuel bs hlen _
    have hnil : bs = [] := List.eq_nil_of_length_eq_zero (by omega)
    subst hnil
    cases fuel <;> simp [groupBytesF]
  | succ k ih =>
    intro fuel bs hlen hfuel
    match bs, fuel with
    | [], _ => simp at hlen
    | b :: rest, 0 => simp at hfuel
    | b :: rest, fuel + 1 =>
      simp only [groupBytesF, if_neg (by decide : ¬ (4 : Nat) = 0),
        List.length_cons]
      rw [ih fuel (rest.drop 3)
        (by simp only [List.length_drop]; simp at hlen; omega)
        (by simp only [List.length_drop]; simp at hfuel; omega)]

/-- A buffer of `8 * k` bytes groups into `k` eight-byte words. -/
lemma groupBytesF_length_eight :
    ∀ k fuel bs, bs.length = 8 * k → bs.length ≤ fuel →
      (groupBytesF 8 fuel bs).length = k := by
  intro k
  induction k with
  | zero =>
    intro fuel bs hlen _
    have hnil : bs = [] := List.eq_nil_of_length_eq_zero (by omega)
    subst hnil
    cases fuel <;> simp [groupBytesF]
  | succ k ih =>
    intro fuel bs hlen hfuel
    match bs, fuel with
    | [], _ => simp at hlen
    | b :: rest, 0 => simp at hfuel
    | b :: rest, fuel + 1 =>
      simp only [groupBytesF, if_neg (by decide : ¬ (8 : Nat) = 0),
        List.length_cons]
      rw [ih fuel (rest.drop 7)
        (by simp only [List.length_drop]; simp at hlen; omega)
        (by simp only [List.length_drop]; simp at hfuel; omega)]

/-- Grouping a `4 * k`-byte buffer yields `k` entries. -/
lemma groupBytes_length_four {bs : List Nat} {k : Nat}
    (h : bs.length = 4 * k) : (groupBytes 4 bs).length = k :=
  groupBytesF_length_four k bs.length bs h (le_refl _)

/-- A successful `getValues` into an `int` buffer of `k * 4` bytes yields
exactly `k` integers. -/
lemma getValuesI32_length {infl : Inflater} {p : PropertyB} {k : Nat}
    {xs : List Int} (h : getValuesI32 infl p (k * 4) = some xs) :
    xs.length = k := by
  simp only [getValuesI32, Option.map_eq_some'] at h
  obtain ⟨bs, hbs, hxs⟩ := h
  have hlen := parseArrayRawBytes_length hbs
  subst hxs
  simp only [List.length_map]
  exact groupBytes_length_four (by omega)

/-- Claim C7 counterexample: `parseAnimationCurve` accepts the key-time
array `[10, 0]`, which is NOT weakly monotonic non-decreasing — no
monotonicity check exists anywhere in the parser. -/
theorem parse_curve_accepts_nonmonotone_times :
    (parseAnimationCurveM inflNone nonMonotoneCurveElem).toOption.map
        (fun c => c.times) = some [10, 0] ∧
    ¬ List.Pairwise (fun a b => a ≤ b) ([10, 0] : List Int) :=
  ⟨rfl, by decide⟩

/-- Claim C7 (amended): every successfully parsed animation curve has
`times.len == values.len` (violations are the fatal error `Invalid
animation curve`), and its flags array is either absent (empty) or of that
same length; the parser does NOT enforce monotonicity of `times`. -/
theorem parse_curve_lengths (infl : Inflater) (el : ElementB)
    (c : AnimationCurveImpl) (h : parseAnimationCurveM infl el = .ok c) :
    c.times.length = c.values.length ∧
    (c.flags = [] ∨ c.flags.length = c.values.length) := by
  simp only [parseAnimationCurveM] at h
  split at h
  · exact Except.noConfusion h
  · split at h
    · exact Except.noConfusion h
    · rename_i values hval
      split at h
      · exact Except.noConfusion h
      · rename_i flags hflags
        split at h
        · exact Except.noConfusion h
        · rename_i hlen
          injection h with h
          subst h
          refine ⟨not_ne_iff.mp hlen, ?_⟩
          split at hflags
          · split at hflags
            · split at hflags
              · split at hflags
                · split at hflags
                  · rename_i hcnt
                    split at hflags
                    · exact Except.noConfusion hflags
                    · rename_i fs hfs
                      injection hflags with hflags
                      subst hflags
                      refine Or.inr ?_
                      show fs.length = values.length
                      rw [getValuesI32_length hfs]
                      exact hcnt.symm
                  · split at hflags
                    · split at hflags
                      · exact Except.noConfusion hflags
                      · injection hflags with hflags
                        subst hflags
                        refine Or.inr ?_
                        simp [AnimationCurveImpl.fresh]
                    · exact Except.noConfusion hflags
                · exact Except.noConfusion hflags
              · exact Except.noConfusion hflags
            · injection hflags with hflags
              exact Or.inl hflags.symm
          · injection hflags with hflags
            exact Or.inl hflags.symm

/-- Witness for the amended C7 at a concrete element (no key data at
all). -/
theorem parse_curve_lengths_witness :
    parseAnimationCurveM inflNone ElementB.empty =
      .ok (AnimationCurveImpl.fresh [] [] []) ∧
    ((AnimationCurveImpl.fresh [] [] []).times.length =
        (AnimationCurveImpl.fresh [] [] []).values.length ∧
      ((AnimationCurveImpl.fresh [] [] []).flags = [] ∨
        (AnimationCurveImpl.fresh [] [] []).flags.length =
          (AnimationCurveImpl.fresh [] [] []).values.length)) :=
  ⟨rfl, parse_curve_lengths inflNone ElementB.empty
    (AnimationCurveImpl.fresh [] [] []) rfl⟩

end OFBX
